import Mathlib

/-!
Shallow embedding of the relayer channel handshake driver
(`src/relayer/src/channel.rs`) together with proofs relating its behaviour
to the natural-language specification.

External collaborators (the chain access layer, the client updater) are
modelled as oracles: a `ChainHandle` is a record of response functions, and
the client updater is a function parameter.  Builder functions run in a
small state-passing monad `BM` that additionally records the sequence of
oracle calls (with their arguments) so that call-ordering and height-usage
properties can be stated.
-/

/-- Chain identifiers; opaque. -/
abbrev ChainId := String

/-- Connection identifiers; opaque. -/
abbrev ConnectionId := String

/-- Client identifiers; opaque. -/
abbrev ClientId := String

/-- Port identifiers; opaque. -/
abbrev PortId := String

/-- Channel identifiers; opaque. -/
abbrev ChannelId := String

/-- Block heights.  `Height::zero()` and `Height::default()` both denote the
"query at latest" sentinel and are the value `0`. -/
abbrev Height := Nat

/-- `Height::zero()`. -/
def Height.zero : Height := 0

/-- `Height::default()`. -/
def Height.defaultH : Height := 0

/-- Transaction signers; opaque. -/
abbrev Signer := String

/-- Commitment proof bundles; opaque payload produced by
`build_channel_proofs`. -/
abbrev Proofs := Nat

/-- Opaque payload of one client-update message. -/
abbrev ClientUpdateMsg := Nat

/-- `ibc::ics04_channel::channel::State`.  The Rust `as u32` values agree
with `State.toNat`. -/
inductive State
  | Uninitialized
  | Init
  | TryOpen
  | Open
  | Closed
deriving DecidableEq

/-- Numeric value of a state (the Rust `as u32` cast). -/
def State.toNat : State → Nat
  | State.Uninitialized => 0
  | State.Init => 1
  | State.TryOpen => 2
  | State.Open => 3
  | State.Closed => 4

/-- Channel ordering discipline (`ibc::ics04_channel::channel::Order`). -/
inductive ChanOrdering
  | Unordered
  | Ordered
deriving DecidableEq

/-- `ibc::ics04_channel::channel::Counterparty`. -/
structure Counterparty where
  port_id : PortId
  channel_id : Option ChannelId
deriving DecidableEq

/-- `Counterparty::new`. -/
def Counterparty.new (port_id : PortId) (channel_id : Option ChannelId) : Counterparty :=
  { port_id := port_id, channel_id := channel_id }

/-- `ibc::ics04_channel::channel::ChannelEnd`. -/
structure ChannelEnd where
  state : State
  ordering : ChanOrdering
  counterparty : Counterparty
  connection_hops : List ConnectionId
  version : String
deriving DecidableEq

/-- `ChannelEnd::new`. -/
def ChannelEnd.new (state : State) (ordering : ChanOrdering) (counterparty : Counterparty)
    (connection_hops : List ConnectionId) (version : String) : ChannelEnd :=
  { state := state, ordering := ordering, counterparty := counterparty,
    connection_hops := connection_hops, version := version }

/-- `ChannelEnd::state_matches`. -/
def ChannelEnd.state_matches (c : ChannelEnd) (s : State) : Bool :=
  decide (c.state = s)

/-- Attributes of a channel open event; only the `channel_id` accessor is
used by the driver. -/
structure ChannelAttributes where
  channel_id : ChannelId
deriving DecidableEq

/-- `ibc::events::IBCEvent`; the variants the driver inspects, with every
remaining variant collapsed into `OtherEvent`. -/
inductive IBCEvent
  | OpenInitChannel (ev : ChannelAttributes)
  | OpenTryChannel (ev : ChannelAttributes)
  | OpenAckChannel (ev : ChannelAttributes)
  | OpenConfirmChannel (ev : ChannelAttributes)
  | ChainError (message : String)
  | OtherEvent (tag : Nat)
deriving DecidableEq

/-- The error kinds of `crate::error::Kind` used by `channel.rs`; errors of
the external chain access layer are collapsed into `External`.
`InternalPanic` stands for the source's `panic` in the unreachable arm of
`build_chan_init_and_send`. -/
inductive Kind
  | KeyBase
  | ChanOpenInit (message : String)
  | ChanOpenTry (message : String)
  | ChanOpenAck (channel_id : ChannelId) (message : String)
  | ChanOpenConfirm (channel_id : ChannelId) (message : String)
  | ChanOpen (channel_id : ChannelId) (message : String)
  | InternalPanic (message : String)
  | External (message : String)
deriving DecidableEq

/-- `crate::error::Error`: a kind, optionally wrapping a cause
(`Kind::context`). -/
inductive Error
  | kind (k : Kind)
  | ctx (k : Kind) (cause : Error)
deriving DecidableEq

/-- `ChannelError` of `channel.rs`. -/
inductive ChannelError
  | Failed (message : String)
deriving DecidableEq

/-- `MsgChannelOpenInit` domain type. -/
structure MsgChannelOpenInit where
  port_id : PortId
  channel : ChannelEnd
  signer : Signer
deriving DecidableEq

/-- `MsgChannelOpenTry` domain type. -/
structure MsgChannelOpenTry where
  port_id : PortId
  previous_channel_id : Option ChannelId
  channel : ChannelEnd
  counterparty_version : String
  proofs : Proofs
  signer : Signer
deriving DecidableEq

/-- `MsgChannelOpenAck` domain type. -/
structure MsgChannelOpenAck where
  port_id : PortId
  channel_id : ChannelId
  counterparty_channel_id : ChannelId
  counterparty_version : String
  proofs : Proofs
  signer : Signer
deriving DecidableEq

/-- `MsgChannelOpenConfirm` domain type. -/
structure MsgChannelOpenConfirm where
  port_id : PortId
  channel_id : ChannelId
  proofs : Proofs
  signer : Signer
deriving DecidableEq

/-- A protobuf `Any` envelope: either a client-update message or one of the
four ICS-004 channel messages (`Msg::to_any`). -/
inductive Any
  | clientUpdate (m : ClientUpdateMsg)
  | chanOpenInit (m : MsgChannelOpenInit)
  | chanOpenTry (m : MsgChannelOpenTry)
  | chanOpenAck (m : MsgChannelOpenAck)
  | chanOpenConfirm (m : MsgChannelOpenConfirm)
deriving DecidableEq

/-- `ChannelConfigSide`. -/
structure ChannelConfigSide where
  chain_id : ChainId
  connection_id : ConnectionId
  client_id : ClientId
  port_id : PortId
  channel_id : ChannelId
deriving DecidableEq

/-- `ChannelConfig`. -/
structure ChannelConfig where
  ordering : ChanOrdering
  a_config : ChannelConfigSide
  b_config : ChannelConfigSide
deriving DecidableEq

/-- `ChannelConfig::src`. -/
def ChannelConfig.src (c : ChannelConfig) : ChannelConfigSide := c.a_config

/-- `ChannelConfig::dst`. -/
def ChannelConfig.dst (c : ChannelConfig) : ChannelConfigSide := c.b_config

/-- `ChannelConfig::a_end`. -/
def ChannelConfig.a_end (c : ChannelConfig) : ChannelConfigSide := c.a_config

/-- `ChannelConfig::b_end`. -/
def ChannelConfig.b_end (c : ChannelConfig) : ChannelConfigSide := c.b_config

/-- `ChannelConfig::flipped`. -/
def ChannelConfig.flipped (c : ChannelConfig) : ChannelConfig :=
  { ordering := c.ordering, a_config := c.b_config, b_config := c.a_config }

/-- The slice of `ConnectionEnd` the driver reads (`client_id` accessor). -/
structure ConnectionEnd where
  client_id : ClientId
deriving DecidableEq

/-- The `ChainHandle` capability set, as a record of oracle responses. -/
structure ChainHandle where
  id : ChainId
  get_signer : Except Error Signer
  module_version : PortId → Except Error String
  query_latest_height : Except Error Height
  query_channel : PortId → ChannelId → Height → Except Error ChannelEnd
  query_connection : ConnectionId → Height → Except Error ConnectionEnd
  build_channel_proofs : PortId → ChannelId → Height → Except Error Proofs
  send_msgs : List Any → Except Error (List IBCEvent)

/-- Which of a builder's two handles a call went to: the destination or the
source chain of that step. -/
inductive ChainTag
  | dst
  | src
deriving DecidableEq

/-- One recorded oracle call with its arguments. -/
inductive CallRec
  | get_signer (c : ChainTag)
  | module_version (c : ChainTag) (p : PortId)
  | query_latest_height (c : ChainTag)
  | query_channel (c : ChainTag) (p : PortId) (ch : ChannelId) (h : Height)
  | query_connection (c : ChainTag) (conn : ConnectionId) (h : Height)
  | build_channel_proofs (c : ChainTag) (p : PortId) (ch : ChannelId) (h : Height)
  | send_msgs (c : ChainTag) (msgs : List Any)
  | update_client (target : Height)
deriving DecidableEq

/-- Call trace accumulated while a builder runs. -/
abbrev CallTrace := List CallRec

/-- Builder monad: fallible computation that appends oracle-call records. -/
def BM (α : Type) : Type := CallTrace → Except Error α × CallTrace

/-- Return a value, no calls. -/
def BM.pur {α : Type} (a : α) : BM α := fun tr => (Except.ok a, tr)

/-- Fail with an error, no calls. -/
def BM.fail {α : Type} (e : Error) : BM α := fun tr => (Except.error e, tr)

/-- Sequencing, short-circuiting on error (the Rust `?` operator). -/
def BM.bind {α β : Type} (x : BM α) (f : α → BM β) : BM β := fun tr =>
  match x tr with
  | (Except.ok a, tr2) => f a tr2
  | (Except.error e, tr2) => (Except.error e, tr2)

/-- `Result::map_err`. -/
def BM.mapErr {α : Type} (x : BM α) (f : Error → Error) : BM α := fun tr =>
  match x tr with
  | (Except.ok a, tr2) => (Except.ok a, tr2)
  | (Except.error e, tr2) => (Except.error (f e), tr2)

/-- Lift a pure fallible computation (no oracle call). -/
def BM.liftE {α : Type} (x : Except Error α) : BM α := fun tr => (x, tr)

/-- Perform one oracle call: record it and deliver its response. -/
def BM.call {α : Type} (r : CallRec) (res : Except Error α) : BM α :=
  fun tr => (res, tr ++ [r])

/-- Run a builder on the empty trace. -/
def BM.run {α : Type} (x : BM α) : Except Error α × CallTrace := x []

/-- `matches!(event, IBCEvent::OpenInitChannel(_))`. -/
def matches_open_init : IBCEvent → Bool
  | IBCEvent.OpenInitChannel _ => true
  | _ => false

/-- `matches!(event, IBCEvent::OpenTryChannel(_))`. -/
def matches_open_try : IBCEvent → Bool
  | IBCEvent.OpenTryChannel _ => true
  | _ => false

/-- `matches!(event, IBCEvent::OpenAckChannel(_))`. -/
def matches_open_ack : IBCEvent → Bool
  | IBCEvent.OpenAckChannel _ => true
  | _ => false

/-- `matches!(event, IBCEvent::OpenConfirmChannel(_))`. -/
def matches_open_confirm : IBCEvent → Bool
  | IBCEvent.OpenConfirmChannel _ => true
  | _ => false

/-- `matches!(event, IBCEvent::ChainError(_))`. -/
def matches_chain_error : IBCEvent → Bool
  | IBCEvent.ChainError _ => true
  | _ => false

/-- `extract_channel_id`. -/
def extract_channel_id (event : IBCEvent) : Except ChannelError ChannelId :=
  match event with
  | IBCEvent.OpenInitChannel ev => Except.ok ev.channel_id
  | IBCEvent.OpenTryChannel ev => Except.ok ev.channel_id
  | IBCEvent.OpenAckChannel ev => Except.ok ev.channel_id
  | IBCEvent.OpenConfirmChannel ev => Except.ok ev.channel_id
  | _ => Except.error (ChannelError.Failed "cannot extract channel_id from result")

/-- `ChannelMsgType`. -/
inductive ChannelMsgType
  | OpenTry
  | OpenAck
  | OpenConfirm
deriving DecidableEq

/-- Modelled from the spec: `build_update_client`
(`crate::foreign_client`, not part of `channel.rs`) produces the ordered
list of client-update messages that advance the destination chain's view of
the source client to the target height.  Its two handle arguments and the
client id and target height are as passed by the builders; its output is
the ordered list of client-update payloads. -/
def Updater : Type :=
  ChainHandle → ChainHandle → ClientId → Height → Except Error (List ClientUpdateMsg)

/-- `build_chan_init`. -/
def build_chan_init (dst_chain _src_chain : ChainHandle) (opts : ChannelConfig) :
    BM (List Any) :=
  BM.bind (BM.mapErr (BM.call (CallRec.get_signer ChainTag.dst) dst_chain.get_signer)
      (fun e => Error.ctx Kind.KeyBase e)) fun signer =>
  let counterparty := Counterparty.new opts.src.port_id none
  BM.bind (BM.call (CallRec.module_version ChainTag.dst opts.dst.port_id)
      (dst_chain.module_version opts.dst.port_id)) fun version =>
  let channel := ChannelEnd.new State.Init opts.ordering counterparty
      [opts.dst.connection_id] version
  let new_msg : MsgChannelOpenInit :=
    { port_id := opts.dst.port_id, channel := channel, signer := signer }
  BM.pur [Any.chanOpenInit new_msg]

/-- `build_chan_init_and_send`. -/
def build_chan_init_and_send (dst_chain src_chain : ChainHandle) (opts : ChannelConfig) :
    BM IBCEvent :=
  BM.bind (build_chan_init dst_chain src_chain opts) fun dst_msgs =>
  BM.bind (BM.call (CallRec.send_msgs ChainTag.dst dst_msgs) (dst_chain.send_msgs dst_msgs))
      fun events =>
  match events.find? (fun event => matches_open_init event || matches_chain_error event) with
  | none => BM.fail (Error.kind (Kind.ChanOpenInit "no chan init event was in the response"))
  | some result =>
    match result with
    | IBCEvent.OpenInitChannel ev => BM.pur (IBCEvent.OpenInitChannel ev)
    | IBCEvent.ChainError e => BM.fail (Error.kind (Kind.ChanOpenInit e))
    | _ => BM.fail (Error.kind (Kind.InternalPanic "internal error"))

/-- `check_destination_channel_state`. -/
def check_destination_channel_state (channel_id : ChannelId)
    (existing_channel expected_channel : ChannelEnd) : Except Error Unit :=
  let good_connection_hops :=
    decide (existing_channel.connection_hops = expected_channel.connection_hops)
  let good_state :=
    decide (existing_channel.state.toNat ≤ expected_channel.state.toNat)
  let good_channel_ids := existing_channel.counterparty.channel_id.isNone
    || decide (existing_channel.counterparty.channel_id
        = expected_channel.counterparty.channel_id)
  if good_state && good_connection_hops && good_channel_ids then
    Except.ok ()
  else
    Except.error (Error.kind (Kind.ChanOpen channel_id
      "channel already exist in an incompatible state"))

/-- `validated_expected_channel`. -/
def validated_expected_channel (dst_chain _src_chain : ChainHandle)
    (msg_type : ChannelMsgType) (opts : ChannelConfig) : BM ChannelEnd :=
  let counterparty := Counterparty.new opts.src.port_id (some opts.src.channel_id)
  let highest_state :=
    match msg_type with
    | ChannelMsgType.OpenAck => State.TryOpen
    | ChannelMsgType.OpenConfirm => State.TryOpen
    | _ => State.Uninitialized
  BM.bind (BM.call (CallRec.module_version ChainTag.dst opts.dst.port_id)
      (dst_chain.module_version opts.dst.port_id)) fun version =>
  let dst_expected_channel := ChannelEnd.new highest_state opts.ordering counterparty
      [opts.dst.connection_id] version
  BM.bind (BM.call (CallRec.query_channel ChainTag.dst opts.dst.port_id opts.dst.channel_id
      Height.defaultH)
      (dst_chain.query_channel opts.dst.port_id opts.dst.channel_id Height.defaultH))
      fun dst_channel =>
  if dst_channel.state_matches State.Uninitialized then
    BM.fail (Error.kind (Kind.ChanOpen opts.src.channel_id "missing channel on source chain"))
  else
  BM.bind (BM.liftE (check_destination_channel_state opts.dst.channel_id dst_channel
      dst_expected_channel)) fun _ =>
  BM.pur dst_expected_channel

/-- `build_chan_try`. -/
def build_chan_try (u : Updater) (dst_chain src_chain : ChainHandle)
    (opts : ChannelConfig) : BM (List Any) :=
  BM.bind (BM.mapErr (BM.call (CallRec.query_channel ChainTag.src opts.src.port_id
      opts.src.channel_id Height.defaultH)
      (src_chain.query_channel opts.src.port_id opts.src.channel_id Height.defaultH))
      (fun e => Error.ctx (Kind.ChanOpenTry "channel does not exist on source") e))
      fun src_channel =>
  BM.bind (BM.call (CallRec.query_connection ChainTag.dst opts.dst.connection_id
      Height.defaultH)
      (dst_chain.query_connection opts.dst.connection_id Height.defaultH))
      fun dst_connection =>
  BM.bind (BM.call (CallRec.query_latest_height ChainTag.src) src_chain.query_latest_height)
      fun ics_target_height =>
  BM.bind (BM.call (CallRec.update_client ics_target_height)
      (Except.map (fun l => l.map Any.clientUpdate)
        (u dst_chain src_chain dst_connection.client_id ics_target_height)))
      fun msgs =>
  let counterparty := Counterparty.new opts.src.port_id (some opts.src.channel_id)
  BM.bind (BM.call (CallRec.module_version ChainTag.dst opts.dst.port_id)
      (dst_chain.module_version opts.dst.port_id)) fun version =>
  let channel := ChannelEnd.new State.TryOpen opts.ordering counterparty
      [opts.dst.connection_id] version
  BM.bind (BM.mapErr (BM.call (CallRec.get_signer ChainTag.dst) dst_chain.get_signer)
      (fun e => Error.ctx Kind.KeyBase e)) fun signer =>
  BM.bind (BM.call (CallRec.module_version ChainTag.src opts.src.port_id)
      (src_chain.module_version opts.src.port_id)) fun counterparty_version =>
  BM.bind (BM.call (CallRec.build_channel_proofs ChainTag.src opts.src.port_id
      opts.src.channel_id ics_target_height)
      (src_chain.build_channel_proofs opts.src.port_id opts.src.channel_id
        ics_target_height)) fun proofs =>
  let new_msg : MsgChannelOpenTry :=
    { port_id := opts.dst.port_id,
      previous_channel_id := src_channel.counterparty.channel_id,
      channel := channel,
      counterparty_version := counterparty_version,
      proofs := proofs,
      signer := signer }
  BM.pur (msgs ++ [Any.chanOpenTry new_msg])

/-- `build_chan_try_and_send`. -/
def build_chan_try_and_send (u : Updater) (dst_chain src_chain : ChainHandle)
    (opts : ChannelConfig) : BM IBCEvent :=
  BM.bind (build_chan_try u dst_chain src_chain opts) fun dst_msgs =>
  BM.bind (BM.call (CallRec.send_msgs ChainTag.dst dst_msgs) (dst_chain.send_msgs dst_msgs))
      fun events =>
  match events.find? (fun event => matches_open_try event || matches_chain_error event) with
  | none => BM.fail (Error.kind (Kind.ChanOpenTry "no chan try event was in the response"))
  | some result => BM.pur result

/-- `build_chan_ack`. -/
def build_chan_ack (u : Updater) (dst_chain src_chain : ChainHandle)
    (opts : ChannelConfig) : BM (List Any) :=
  BM.bind (BM.mapErr (validated_expected_channel dst_chain src_chain
      ChannelMsgType.OpenAck opts)
      (fun e => Error.ctx (Kind.ChanOpenAck opts.src.channel_id
        "ack options inconsistent with existing channel on destination chain") e))
      fun _dst_expected_channel =>
  BM.bind (BM.mapErr (BM.call (CallRec.query_channel ChainTag.src opts.src.port_id
      opts.src.channel_id Height.defaultH)
      (src_chain.query_channel opts.src.port_id opts.src.channel_id Height.defaultH))
      (fun e => Error.ctx (Kind.ChanOpenAck opts.dst.channel_id
        "channel does not exist on source") e)) fun _src_channel =>
  BM.bind (BM.call (CallRec.query_connection ChainTag.dst opts.dst.connection_id
      Height.defaultH)
      (dst_chain.query_connection opts.dst.connection_id Height.defaultH))
      fun dst_connection =>
  BM.bind (BM.call (CallRec.query_latest_height ChainTag.src) src_chain.query_latest_height)
      fun ics_target_height =>
  BM.bind (BM.call (CallRec.update_client ics_target_height)
      (Except.map (fun l => l.map Any.clientUpdate)
        (u dst_chain src_chain dst_connection.client_id ics_target_height)))
      fun msgs =>
  BM.bind (BM.mapErr (BM.call (CallRec.get_signer ChainTag.dst) dst_chain.get_signer)
      (fun e => Error.ctx Kind.KeyBase e)) fun signer =>
  BM.bind (BM.call (CallRec.module_version ChainTag.src opts.dst.port_id)
      (src_chain.module_version opts.dst.port_id)) fun counterparty_version =>
  BM.bind (BM.call (CallRec.build_channel_proofs ChainTag.src opts.src.port_id
      opts.src.channel_id ics_target_height)
      (src_chain.build_channel_proofs opts.src.port_id opts.src.channel_id
        ics_target_height)) fun proofs =>
  let new_msg : MsgChannelOpenAck :=
    { port_id := opts.dst.port_id,
      channel_id := opts.dst.channel_id,
      counterparty_channel_id := opts.src.channel_id,
      counterparty_version := counterparty_version,
      proofs := proofs,
      signer := signer }
  BM.pur (msgs ++ [Any.chanOpenAck new_msg])

/-- `build_chan_ack_and_send`. -/
def build_chan_ack_and_send (u : Updater) (dst_chain src_chain : ChainHandle)
    (opts : ChannelConfig) : BM IBCEvent :=
  BM.bind (build_chan_ack u dst_chain src_chain opts) fun dst_msgs =>
  BM.bind (BM.call (CallRec.send_msgs ChainTag.dst dst_msgs) (dst_chain.send_msgs dst_msgs))
      fun events =>
  match events.find? (fun event => matches_open_ack event || matches_chain_error event) with
  | none => BM.fail (Error.kind (Kind.ChanOpenAck opts.dst.channel_id
      "no chan ack event was in the response"))
  | some result => BM.pur result

/-- `build_chan_confirm`. -/
def build_chan_confirm (u : Updater) (dst_chain src_chain : ChainHandle)
    (opts : ChannelConfig) : BM (List Any) :=
  BM.bind (BM.mapErr (validated_expected_channel dst_chain src_chain
      ChannelMsgType.OpenConfirm opts)
      (fun e => Error.ctx (Kind.ChanOpenConfirm opts.src.channel_id
        "confirm options inconsistent with existing channel on destination chain") e))
      fun _dst_expected_channel =>
  BM.bind (BM.mapErr (BM.call (CallRec.query_channel ChainTag.src opts.src.port_id
      opts.src.channel_id Height.defaultH)
      (src_chain.query_channel opts.src.port_id opts.src.channel_id Height.defaultH))
      (fun e => Error.ctx (Kind.ChanOpenConfirm opts.src.channel_id
        "channel does not exist on source") e)) fun _src_channel =>
  BM.bind (BM.call (CallRec.query_connection ChainTag.dst opts.dst.connection_id
      Height.defaultH)
      (dst_chain.query_connection opts.dst.connection_id Height.defaultH))
      fun dst_connection =>
  BM.bind (BM.call (CallRec.query_latest_height ChainTag.src) src_chain.query_latest_height)
      fun ics_target_height =>
  BM.bind (BM.call (CallRec.update_client ics_target_height)
      (Except.map (fun l => l.map Any.clientUpdate)
        (u dst_chain src_chain dst_connection.client_id ics_target_height)))
      fun msgs =>
  BM.bind (BM.mapErr (BM.call (CallRec.get_signer ChainTag.dst) dst_chain.get_signer)
      (fun e => Error.ctx Kind.KeyBase e)) fun signer =>
  BM.bind (BM.call (CallRec.build_channel_proofs ChainTag.src opts.src.port_id
      opts.src.channel_id ics_target_height)
      (src_chain.build_channel_proofs opts.src.port_id opts.src.channel_id
        ics_target_height)) fun proofs =>
  let new_msg : MsgChannelOpenConfirm :=
    { port_id := opts.dst.port_id,
      channel_id := opts.dst.channel_id,
      proofs := proofs,
      signer := signer }
  BM.pur (msgs ++ [Any.chanOpenConfirm new_msg])

/-- `build_chan_confirm_and_send`. -/
def build_chan_confirm_and_send (u : Updater) (dst_chain src_chain : ChainHandle)
    (opts : ChannelConfig) : BM IBCEvent :=
  BM.bind (build_chan_confirm u dst_chain src_chain opts) fun dst_msgs =>
  BM.bind (BM.call (CallRec.send_msgs ChainTag.dst dst_msgs) (dst_chain.send_msgs dst_msgs))
      fun events =>
  match events.find? (fun event => matches_open_confirm event || matches_chain_error event) with
  | none => BM.fail (Error.kind (Kind.ChanOpenConfirm opts.dst.channel_id
      "no chan confirm event was in the response"))
  | some result => BM.pur result

/-- Which config side an assignment wrote. -/
inductive SideTag
  | A
  | B
deriving DecidableEq

/-- One write of a `channel_id` into the config, with the event it was
extracted from. -/
structure Assignment where
  side : SideTag
  event : IBCEvent
  cid : ChannelId
deriving DecidableEq

/-- The state of the two chains (and of the client updater) as visible to
one loop iteration. -/
structure World where
  a : ChainHandle
  b : ChainHandle
  upd : Updater

/-- Environment of one `handshake()` run: the world as seen by iteration
`i` of each of the three phases. -/
structure HandshakeEnv where
  w1 : Nat → World
  w2 : Nat → World
  w3 : Nat → World

/-- The message of the budget-exhaustion error
(`format!("Failed to finish channel handshake in {:?} iterations", MAX_ITER)`). -/
def budgetMsg (maxIter : Nat) : String :=
  "Failed to finish channel handshake in " ++ toString maxIter ++ " iterations"

/-- Phase I of `handshake()`: up to `fuel` more attempts of
`build_chan_init_and_send(a_chain, b_chain, &flipped)`, starting at
iteration `i`.  A wrapper error is logged and retried; on success the
extracted channel id is written into `a_config.channel_id` (the `?` on
`extract_channel_id` aborts the whole handshake); exhausting the budget
falls through with the config unchanged. -/
def phase1Go (env : HandshakeEnv) (flip : ChannelConfig) (cfg : ChannelConfig) :
    Nat → Nat → Except ChannelError ChannelConfig × List Assignment
  | _, 0 => (Except.ok cfg, [])
  | i, fuel + 1 =>
    match (build_chan_init_and_send ((env.w1 i).a) ((env.w1 i).b) flip).run.1 with
    | Except.error _ => phase1Go env flip cfg (i + 1) fuel
    | Except.ok result =>
      match extract_channel_id result with
      | Except.error e => (Except.error e, [])
      | Except.ok cid =>
        (Except.ok { cfg with a_config := { cfg.a_config with channel_id := cid } },
         [{ side := SideTag.A, event := result, cid := cid }])

/-- Phase II of `handshake()`: up to `fuel` more attempts of
`build_chan_try_and_send(b_chain, a_chain, &self.config)`; on success the
extracted channel id is written into `b_config.channel_id`. -/
def phase2Go (env : HandshakeEnv) (cfg : ChannelConfig) :
    Nat → Nat → Except ChannelError ChannelConfig × List Assignment
  | _, 0 => (Except.ok cfg, [])
  | i, fuel + 1 =>
    match (build_chan_try_and_send ((env.w2 i).upd) ((env.w2 i).b) ((env.w2 i).a) cfg).run.1 with
    | Except.error _ => phase2Go env cfg (i + 1) fuel
    | Except.ok result =>
      match extract_channel_id result with
      | Except.error e => (Except.error e, [])
      | Except.ok cid =>
        (Except.ok { cfg with b_config := { cfg.b_config with channel_id := cid } },
         [{ side := SideTag.B, event := result, cid := cid }])

/-- Phase III of `handshake()`: up to `fuel` more iterations, starting at
iteration `i`.  Each iteration queries both channel ends at `Height::zero()`
(continuing on a query error) and dispatches on the joint state; every
dispatch result is logged and discarded; `(Open, Open)` returns success;
exhausting the budget yields the budget-exhaustion `ChannelError::Failed`. -/
def phase3Go (env : HandshakeEnv) (maxIter : Nat) (cfg flip : ChannelConfig) :
    Nat → Nat → Except ChannelError Unit
  | _, 0 => Except.error (ChannelError.Failed (budgetMsg maxIter))
  | i, fuel + 1 =>
    match (env.w3 i).a.query_channel cfg.a_end.port_id cfg.a_end.channel_id Height.zero with
    | Except.error _ => phase3Go env maxIter cfg flip (i + 1) fuel
    | Except.ok a_channel =>
      match (env.w3 i).b.query_channel cfg.b_end.port_id cfg.b_end.channel_id Height.zero with
      | Except.error _ => phase3Go env maxIter cfg flip (i + 1) fuel
      | Except.ok b_channel =>
        match a_channel.state, b_channel.state with
        | State.Init, State.TryOpen =>
          let _a := (build_chan_ack_and_send ((env.w3 i).upd) ((env.w3 i).a) ((env.w3 i).b)
            flip).run
          phase3Go env maxIter cfg flip (i + 1) fuel
        | State.TryOpen, State.TryOpen =>
          let _a := (build_chan_ack_and_send ((env.w3 i).upd) ((env.w3 i).a) ((env.w3 i).b)
            flip).run
          phase3Go env maxIter cfg flip (i + 1) fuel
        | State.Open, State.TryOpen =>
          let _c := (build_chan_confirm_and_send ((env.w3 i).upd) ((env.w3 i).b) ((env.w3 i).a)
            cfg).run
          phase3Go env maxIter cfg flip (i + 1) fuel
        | State.TryOpen, State.Open =>
          let _c := (build_chan_confirm_and_send ((env.w3 i).upd) ((env.w3 i).a) ((env.w3 i).b)
            flip).run
          phase3Go env maxIter cfg flip (i + 1) fuel
        | State.Open, State.Open => Except.ok Unit.unit
        | _, _ => phase3Go env maxIter cfg flip (i + 1) fuel

/-- Phases I and II in sequence, accumulating the channel-id assignments. -/
def runPhases12 (env : HandshakeEnv) (maxIter : Nat) (cfg : ChannelConfig) :
    Except ChannelError ChannelConfig × List Assignment :=
  match phase1Go env cfg.flipped cfg 0 maxIter with
  | (Except.error e, tr1) => (Except.error e, tr1)
  | (Except.ok cfg1, tr1) =>
    match phase2Go env cfg1 0 maxIter with
    | (Except.error e, tr2) => (Except.error e, tr1 ++ tr2)
    | (Except.ok cfg2, tr2) => (Except.ok cfg2, tr1 ++ tr2)

/-- `Channel::handshake`, parameterised by the iteration budget `MAX_ITER`
(a compile-time constant of `crate::relay`, outside this file) and by the
environment.  Besides the driver's result it returns the list of
channel-id assignments performed on the config. -/
def handshake (env : HandshakeEnv) (maxIter : Nat) (cfg : ChannelConfig) :
    Except ChannelError Unit × List Assignment :=
  match runPhases12 env maxIter cfg with
  | (Except.error e, tr) => (Except.error e, tr)
  | (Except.ok cfg2, tr) => (phase3Go env maxIter cfg2 cfg2.flipped 0 maxIter, tr)

/-- A concrete channel config for witnesses and counterexamples. -/
def cfgFix : ChannelConfig :=
  { ordering := ChanOrdering.Unordered,
    a_config := { chain_id := "chain-A", connection_id := "conn-A", client_id := "client-A",
                  port_id := "transfer", channel_id := "channel-0" },
    b_config := { chain_id := "chain-B", connection_id := "conn-B", client_id := "client-B",
                  port_id := "transfer", channel_id := "channel-7" } }

/-- The same config with both channel ids still at their defaults. -/
def cfgStart : ChannelConfig :=
  { ordering := ChanOrdering.Unordered,
    a_config := { chain_id := "chain-A", connection_id := "conn-A", client_id := "client-A",
                  port_id := "transfer", channel_id := "" },
    b_config := { chain_id := "chain-B", connection_id := "conn-B", client_id := "client-B",
                  port_id := "transfer", channel_id := "" } }

/-- A concrete channel end in the given state, compatible with `cfgFix`. -/
def endFix (st : State) : ChannelEnd :=
  ChannelEnd.new st ChanOrdering.Unordered
    (Counterparty.new "transfer" (some "channel-0")) ["conn-B"] "ics20-1"

/-- A concrete client updater producing two update messages. -/
def updFix : Updater := fun _ _ _ _ => Except.ok [11, 12]

/-- A concrete chain handle whose queries all succeed, whose channel query
returns `endFix st`, and whose transaction submission returns `evs`. -/
def mkHandle (st : State) (evs : List IBCEvent) : ChainHandle :=
  { id := "chain-fix",
    get_signer := Except.ok "sgn",
    module_version := fun _ => Except.ok "ics20-1",
    query_latest_height := Except.ok 5,
    query_channel := fun _ _ _ => Except.ok (endFix st),
    query_connection := fun _ _ => Except.ok { client_id := "client-B" },
    build_channel_proofs := fun _ _ _ => Except.ok 7,
    send_msgs := fun _ => Except.ok evs }

/-- A concrete chain handle whose every operation fails. -/
def failHandle : ChainHandle :=
  { id := "chain-down",
    get_signer := Except.error (Error.kind (Kind.External "down")),
    module_version := fun _ => Except.error (Error.kind (Kind.External "down")),
    query_latest_height := Except.error (Error.kind (Kind.External "down")),
    query_channel := fun _ _ _ => Except.error (Error.kind (Kind.External "down")),
    query_connection := fun _ _ => Except.error (Error.kind (Kind.External "down")),
    build_channel_proofs := fun _ _ _ => Except.error (Error.kind (Kind.External "down")),
    send_msgs := fun _ => Except.error (Error.kind (Kind.External "down")) }

/-- An observed destination channel end that differs from the expected one
in version, counterparty port and ordering, but agrees on connection hops
and has state `Init` and no counterparty channel id. -/
def c4Observed : ChannelEnd :=
  ChannelEnd.new State.Init ChanOrdering.Ordered
    (Counterparty.new "other-port" none) ["conn-B"] "other-version"

/-- The expected destination channel end `validated_expected_channel`
computes for the Ack step over `cfgFix`. -/
def c4Expected : ChannelEnd :=
  ChannelEnd.new State.TryOpen ChanOrdering.Unordered
    (Counterparty.new "transfer" (some "channel-0")) ["conn-B"] "ics20-1"

/-- A destination handle observing `c4Observed`. -/
def c4Dst : ChainHandle :=
  { id := "chain-B",
    get_signer := Except.ok "sgn",
    module_version := fun _ => Except.ok "ics20-1",
    query_latest_height := Except.ok 5,
    query_channel := fun _ _ _ => Except.ok c4Observed,
    query_connection := fun _ _ => Except.ok { client_id := "client-B" },
    build_channel_proofs := fun _ _ _ => Except.ok 7,
    send_msgs := fun _ => Except.ok [] }

/-- A handshake environment in which every chain operation fails. -/
def envFail : HandshakeEnv :=
  { w1 := fun _ => { a := failHandle, b := failHandle, upd := updFix },
    w2 := fun _ => { a := failHandle, b := failHandle, upd := updFix },
    w3 := fun _ => { a := failHandle, b := failHandle, upd := updFix } }

/-- A handshake environment realising the happy path: phase I emits
`OpenInitChannel("channel-0")` on A, phase II emits
`OpenTryChannel("channel-7")` on B, phase III observes both ends `Open`. -/
def envHappy : HandshakeEnv :=
  { w1 := fun _ => World.mk
      (mkHandle State.Init [IBCEvent.OpenInitChannel (ChannelAttributes.mk "channel-0")])
      (mkHandle State.Init []) updFix,
    w2 := fun _ => World.mk (mkHandle State.Init [])
      (mkHandle State.Init [IBCEvent.OpenTryChannel (ChannelAttributes.mk "channel-7")])
      updFix,
    w3 := fun _ => World.mk (mkHandle State.Open []) (mkHandle State.Open []) updFix }

/-- A handshake environment in which phase II's transaction submission
reports `ChainError("insufficient fee")`. -/
def envExtract : HandshakeEnv :=
  { w1 := fun _ => World.mk
      (mkHandle State.Init [IBCEvent.OpenInitChannel (ChannelAttributes.mk "channel-0")])
      (mkHandle State.Init []) updFix,
    w2 := fun _ => World.mk (mkHandle State.Init [])
      (mkHandle State.Init [IBCEvent.ChainError "insufficient fee"]) updFix,
    w3 := fun _ => World.mk (mkHandle State.Init []) (mkHandle State.Init []) updFix }

/-- Whether phase III's iteration `i` observes both channel ends `Open`. -/
def observesOpenOpen (env : HandshakeEnv) (i : Nat) (cfg : ChannelConfig) : Bool :=
  match (env.w3 i).a.query_channel cfg.a_end.port_id cfg.a_end.channel_id Height.zero with
  | Except.error _ => false
  | Except.ok a_channel =>
    match (env.w3 i).b.query_channel cfg.b_end.port_id cfg.b_end.channel_id
        Height.zero with
    | Except.error _ => false
    | Except.ok b_channel =>
      decide (a_channel.state = State.Open) && decide (b_channel.state = State.Open)

/-- Claim C9: `flipped` returns a config whose `a` side is the original `b`
side and vice versa, with the ordering preserved, and flipping twice is the
identity. -/
theorem flipped_swaps_sides_and_is_involutive (c : ChannelConfig) :
    c.flipped.a_config = c.b_config ∧ c.flipped.b_config = c.a_config
      ∧ c.flipped.ordering = c.ordering ∧ c.flipped.flipped = c :=
  ⟨rfl, rfl, rfl, rfl⟩

/-- Claim C1 counterexample: when `send_msgs` answers with a
`ChainError("insufficient fee")` event, `build_chan_try_and_send` returns
that `ChainError` event as its success value instead of the step-specific
`ChanOpenTry` error the claim requires. -/
theorem chan_try_and_send_returns_chainerror_as_success :
    ((build_chan_try_and_send updFix
        (mkHandle State.TryOpen [IBCEvent.ChainError "insufficient fee"])
        (mkHandle State.Init []) cfgFix).run).1
      = Except.ok (IBCEvent.ChainError "insufficient fee") := by
  rfl

/-- Claim C4 counterexample: the destination comparison accepts an observed
channel end whose version and counterparty port id both differ from the
locally-computed expected channel end, so neither is enforced. -/
theorem validated_expected_channel_accepts_version_and_port_mismatch :
    ((validated_expected_channel c4Dst (mkHandle State.Init [])
        ChannelMsgType.OpenAck cfgFix).run).1 = Except.ok c4Expected
      ∧ c4Dst.query_channel cfgFix.dst.port_id cfgFix.dst.channel_id Height.defaultH
        = Except.ok c4Observed
      ∧ c4Observed.version ≠ c4Expected.version
      ∧ c4Observed.counterparty.port_id ≠ c4Expected.counterparty.port_id :=
  ⟨rfl, rfl, by decide, by decide⟩

/-- What `check_destination_channel_state` actually enforces. -/
theorem check_destination_iff (channel_id : ChannelId) (existing expected : ChannelEnd) :
    check_destination_channel_state channel_id existing expected = Except.ok () ↔
      (existing.connection_hops = expected.connection_hops
        ∧ existing.state.toNat ≤ expected.state.toNat
        ∧ (existing.counterparty.channel_id = none
            ∨ existing.counterparty.channel_id = expected.counterparty.channel_id)) := by
  simp only [check_destination_channel_state]
  split
  next hcond =>
    simp only [Bool.and_eq_true, decide_eq_true_eq, Bool.or_eq_true,
      Option.isNone_iff_eq_none] at hcond
    exact iff_of_true rfl ⟨hcond.1.2, hcond.1.1, hcond.2⟩
  next hcond =>
    simp only [Bool.and_eq_true, decide_eq_true_eq, Bool.or_eq_true,
      Option.isNone_iff_eq_none] at hcond
    exact iff_of_false (by simp) fun h => hcond ⟨⟨h.2.1, h.1⟩, h.2.2⟩

/-- For Ack and Confirm, `validated_expected_channel` succeeds (with the
locally-computed expected channel) exactly when
`check_destination_channel_state` accepts the observed channel. -/
theorem validated_expected_channel_eq_check (dst_chain src_chain : ChainHandle)
    (mt : ChannelMsgType) (opts : ChannelConfig) (ver : String) (obs : ChannelEnd)
    (hmt : mt = ChannelMsgType.OpenAck ∨ mt = ChannelMsgType.OpenConfirm)
    (hmv : dst_chain.module_version opts.dst.port_id = Except.ok ver)
    (hq : dst_chain.query_channel opts.dst.port_id opts.dst.channel_id Height.defaultH
        = Except.ok obs)
    (hnm : obs.state_matches State.Uninitialized = false) :
    ((validated_expected_channel dst_chain src_chain mt opts).run).1
        = Except.ok (ChannelEnd.new State.TryOpen opts.ordering
            (Counterparty.new opts.src.port_id (some opts.src.channel_id))
            [opts.dst.connection_id] ver)
      ↔ check_destination_channel_state opts.dst.channel_id obs
          (ChannelEnd.new State.TryOpen opts.ordering
            (Counterparty.new opts.src.port_id (some opts.src.channel_id))
            [opts.dst.connection_id] ver) = Except.ok () := by
  rcases hmt with hmt | hmt <;> subst hmt <;>
  · simp only [validated_expected_channel, BM.bind, BM.call, BM.run, BM.liftE, BM.fail,
      BM.pur, hmv, hq, hnm]
    cases hchk : check_destination_channel_state opts.dst.channel_id obs
        (ChannelEnd.new State.TryOpen opts.ordering
          (Counterparty.new opts.src.port_id (some opts.src.channel_id))
          [opts.dst.connection_id] ver) with
    | ok u => simp [hchk, BM.bind, BM.liftE, BM.pur]
    | error e => simp [hchk, BM.bind, BM.liftE, BM.pur]

/-- Claim C4 (amended): at the Ack and Confirm steps the locally-computed
expected channel end is compared against the observed destination channel
end, and the comparison enforces exactly: matching connection hops, an
observed state numerically at most the expected state, and a counterparty
channel id that is unset or equal to the expected one; the version and the
counterparty port id are not compared. -/
theorem destination_compatibility_comparison_characterization :
    (∀ (channel_id : ChannelId) (existing expected : ChannelEnd),
      check_destination_channel_state channel_id existing expected = Except.ok () ↔
        (existing.connection_hops = expected.connection_hops
          ∧ existing.state.toNat ≤ expected.state.toNat
          ∧ (existing.counterparty.channel_id = none
              ∨ existing.counterparty.channel_id = expected.counterparty.channel_id)))
    ∧ (∀ (dst_chain src_chain : ChainHandle) (mt : ChannelMsgType) (opts : ChannelConfig)
        (ver : String) (obs : ChannelEnd),
        (mt = ChannelMsgType.OpenAck ∨ mt = ChannelMsgType.OpenConfirm) →
        dst_chain.module_version opts.dst.port_id = Except.ok ver →
        dst_chain.query_channel opts.dst.port_id opts.dst.channel_id Height.defaultH
          = Except.ok obs →
        obs.state_matches State.Uninitialized = false →
        (((validated_expected_channel dst_chain src_chain mt opts).run).1
            = Except.ok (ChannelEnd.new State.TryOpen opts.ordering
                (Counterparty.new opts.src.port_id (some opts.src.channel_id))
                [opts.dst.connection_id] ver)
          ↔ check_destination_channel_state opts.dst.channel_id obs
              (ChannelEnd.new State.TryOpen opts.ordering
                (Counterparty.new opts.src.port_id (some opts.src.channel_id))
                [opts.dst.connection_id] ver) = Except.ok ())) :=
  ⟨check_destination_iff, validated_expected_channel_eq_check⟩

/-- Witness for the amended C4 theorem at a concrete input. -/
theorem destination_compatibility_comparison_witness :
    ((validated_expected_channel c4Dst (mkHandle State.Init [])
        ChannelMsgType.OpenAck cfgFix).run).1 = Except.ok c4Expected
      ↔ check_destination_channel_state cfgFix.dst.channel_id c4Observed c4Expected
          = Except.ok () := by
  have h := destination_compatibility_comparison_characterization.2 c4Dst
    (mkHandle State.Init []) ChannelMsgType.OpenAck cfgFix "ics20-1" c4Observed
    (Or.inl rfl) rfl rfl (by decide)
  exact h

/-- Claim C7: for message types `OpenAck` and `OpenConfirm`,
`validated_expected_channel` returns an error whenever the channel end
observed on the destination has a state whose numeric value exceeds that of
`TryOpen`. -/
theorem validated_expected_channel_rejects_states_beyond_tryopen
    (dst_chain src_chain : ChainHandle) (msg_type : ChannelMsgType)
    (opts : ChannelConfig) (obs : ChannelEnd)
    (hmt : msg_type = ChannelMsgType.OpenAck ∨ msg_type = ChannelMsgType.OpenConfirm)
    (hq : dst_chain.query_channel opts.dst.port_id opts.dst.channel_id Height.defaultH
        = Except.ok obs)
    (hs : State.TryOpen.toNat < obs.state.toNat) :
    ∃ e, ((validated_expected_channel dst_chain src_chain msg_type opts).run).1
      = Except.error e := by
  have hs2 : 2 < obs.state.toNat := hs
  have hnm : obs.state_matches State.Uninitialized = false := by
    cases hso : obs.state
    · rw [hso] at hs2; simp [State.toNat] at hs2
    all_goals (simp only [ChannelEnd.state_matches, hso]; rfl)
  have hgs : decide (obs.state.toNat ≤ 2) = false := decide_eq_false (by omega)
  rcases hmt with hmt | hmt <;> subst hmt <;>
  · cases hmv : dst_chain.module_version opts.dst.port_id with
    | error e =>
      exact ⟨e, by simp [validated_expected_channel, BM.bind, BM.call, BM.run, hmv]⟩
    | ok ver =>
      refine ⟨Error.kind (Kind.ChanOpen opts.dst.channel_id
        "channel already exist in an incompatible state"), ?_⟩
      have hnle : ¬ (obs.state.toNat ≤ State.TryOpen.toNat) := Nat.not_le.mpr hs
      simp [validated_expected_channel, BM.bind, BM.call, BM.run, BM.liftE, BM.fail,
        BM.pur, hmv, hq, hnm, check_destination_channel_state, ChannelEnd.new, hnle]

/-- Witness for C7 at a concrete input: the destination channel is already
`Open` when the Ack step checks it. -/
theorem validated_expected_channel_rejects_states_witness :
    ∃ e, ((validated_expected_channel (mkHandle State.Open []) (mkHandle State.Open [])
        ChannelMsgType.OpenAck cfgFix).run).1 = Except.error e :=
  validated_expected_channel_rejects_states_beyond_tryopen
    (mkHandle State.Open []) (mkHandle State.Open []) ChannelMsgType.OpenAck cfgFix
    (endFix State.Open) (Or.inl rfl) rfl (by decide)

/-- Inversion: a successful `BM.bind` run splits into a successful first
component and a successful continuation. -/
theorem BM.bind_ok_pair {α β : Type} (x : BM α) (f : α → BM β) (tr : CallTrace)
    (b : β) (tr3 : CallTrace) (h : BM.bind x f tr = (Except.ok b, tr3)) :
    ∃ a tr2, x tr = (Except.ok a, tr2) ∧ f a tr2 = (Except.ok b, tr3) := by
  unfold BM.bind at h
  cases hx : x tr with
  | mk r t =>
    rw [hx] at h
    cases r with
    | ok a => exact ⟨a, t, rfl, h⟩
    | error e => simp at h

/-- Inversion: `BM.mapErr` does not change successful runs. -/
theorem BM.mapErr_ok {α : Type} (x : BM α) (f : Error → Error) (tr : CallTrace)
    (a : α) (tr2 : CallTrace) (h : BM.mapErr x f tr = (Except.ok a, tr2)) :
    x tr = (Except.ok a, tr2) := by
  unfold BM.mapErr at h
  cases hx : x tr with
  | mk r t =>
    rw [hx] at h
    cases r with
    | ok b => simpa using h
    | error e => simp at h

/-- Inversion: a successful `BM.call` delivers the oracle's response and
appends exactly one record. -/
theorem BM.call_ok_pair {α : Type} (r : CallRec) (res : Except Error α)
    (tr : CallTrace) (a : α) (tr2 : CallTrace)
    (h : BM.call r res tr = (Except.ok a, tr2)) :
    res = Except.ok a ∧ tr2 = tr ++ [r] := by
  unfold BM.call at h
  rw [Prod.mk.injEq] at h
  exact ⟨h.1, h.2.symm⟩

/-- Inversion for `BM.pur`. -/
theorem BM.pur_ok_pair {α : Type} (v : α) (tr : CallTrace) (b : α) (tr2 : CallTrace)
    (h : BM.pur v tr = (Except.ok b, tr2)) : v = b ∧ tr2 = tr := by
  unfold BM.pur at h
  rw [Prod.mk.injEq] at h
  exact ⟨by injection h.1, h.2.symm⟩

/-- Inversion for `Except.map` on a success. -/
theorem except_map_ok {α β : Type} (f : α → β) (x : Except Error α) (b : β)
    (h : Except.map f x = Except.ok b) : ∃ a, x = Except.ok a ∧ b = f a := by
  cases x with
  | ok a =>
    refine ⟨a, rfl, ?_⟩
    have h2 : (Except.ok (f a) : Except Error β) = Except.ok b := by
      simpa [Except.map] using h
    injection h2 with h3
    exact h3.symm
  | error e => simp [Except.map] at h

/-- Claim C1 (amended): when the first event matching the wrapper's filter
is a `ChainError`, only `build_chan_init_and_send` maps it to the
step-specific error (`ChanOpenInit` wrapping the chain-reported message);
`build_chan_try_and_send`, `build_chan_ack_and_send` and
`build_chan_confirm_and_send` return the `ChainError` event itself as their
success value. -/
theorem send_and_extract_chainerror_behaviour :
    (∀ (dst_chain src_chain : ChainHandle) (opts : ChannelConfig) (msgs : List Any)
        (tr0 : CallTrace) (evs : List IBCEvent) (m : String),
      (build_chan_init dst_chain src_chain opts).run = (Except.ok msgs, tr0) →
      dst_chain.send_msgs msgs = Except.ok evs →
      evs.find? (fun event => matches_open_init event || matches_chain_error event)
        = some (IBCEvent.ChainError m) →
      ((build_chan_init_and_send dst_chain src_chain opts).run).1
        = Except.error (Error.kind (Kind.ChanOpenInit m)))
    ∧ (∀ (u : Updater) (dst_chain src_chain : ChainHandle) (opts : ChannelConfig)
        (msgs : List Any) (tr0 : CallTrace) (evs : List IBCEvent) (m : String),
      (build_chan_try u dst_chain src_chain opts).run = (Except.ok msgs, tr0) →
      dst_chain.send_msgs msgs = Except.ok evs →
      evs.find? (fun event => matches_open_try event || matches_chain_error event)
        = some (IBCEvent.ChainError m) →
      ((build_chan_try_and_send u dst_chain src_chain opts).run).1
        = Except.ok (IBCEvent.ChainError m))
    ∧ (∀ (u : Updater) (dst_chain src_chain : ChainHandle) (opts : ChannelConfig)
        (msgs : List Any) (tr0 : CallTrace) (evs : List IBCEvent) (m : String),
      (build_chan_ack u dst_chain src_chain opts).run = (Except.ok msgs, tr0) →
      dst_chain.send_msgs msgs = Except.ok evs →
      evs.find? (fun event => matches_open_ack event || matches_chain_error event)
        = some (IBCEvent.ChainError m) →
      ((build_chan_ack_and_send u dst_chain src_chain opts).run).1
        = Except.ok (IBCEvent.ChainError m))
    ∧ (∀ (u : Updater) (dst_chain src_chain : ChainHandle) (opts : ChannelConfig)
        (msgs : List Any) (tr0 : CallTrace) (evs : List IBCEvent) (m : String),
      (build_chan_confirm u dst_chain src_chain opts).run = (Except.ok msgs, tr0) →
      dst_chain.send_msgs msgs = Except.ok evs →
      evs.find? (fun event => matches_open_confirm event || matches_chain_error event)
        = some (IBCEvent.ChainError m) →
      ((build_chan_confirm_and_send u dst_chain src_chain opts).run).1
        = Except.ok (IBCEvent.ChainError m)) := by
  refine ⟨?_, ?_, ?_, ?_⟩
  · intro dst_chain src_chain opts msgs tr0 evs m h1 h2 h3
    have h1x : build_chan_init dst_chain src_chain opts [] = (Except.ok msgs, tr0) := h1
    simp only [build_chan_init_and_send, BM.bind, BM.call, BM.run, BM.fail, BM.pur,
      h1x, h2, h3]
  · intro u dst_chain src_chain opts msgs tr0 evs m h1 h2 h3
    have h1x : build_chan_try u dst_chain src_chain opts [] = (Except.ok msgs, tr0) := h1
    simp only [build_chan_try_and_send, BM.bind, BM.call, BM.run, BM.fail, BM.pur,
      h1x, h2, h3]
  · intro u dst_chain src_chain opts msgs tr0 evs m h1 h2 h3
    have h1x : build_chan_ack u dst_chain src_chain opts [] = (Except.ok msgs, tr0) := h1
    simp only [build_chan_ack_and_send, BM.bind, BM.call, BM.run, BM.fail, BM.pur,
      h1x, h2, h3]
  · intro u dst_chain src_chain opts msgs tr0 evs m h1 h2 h3
    have h1x : build_chan_confirm u dst_chain src_chain opts [] = (Except.ok msgs, tr0) := h1
    simp only [build_chan_confirm_and_send, BM.bind, BM.call, BM.run, BM.fail, BM.pur,
      h1x, h2, h3]

/-- Witness for the amended C1 theorem at concrete inputs: the Init wrapper
turns a chain-reported error into `ChanOpenInit`, while the Ack wrapper
returns the `ChainError` event as its success value. -/
theorem send_and_extract_chainerror_witness :
    ((build_chan_init_and_send (mkHandle State.Init [IBCEvent.ChainError "bad fee"])
        (mkHandle State.Init []) cfgFix).run).1
      = Except.error (Error.kind (Kind.ChanOpenInit "bad fee"))
    ∧ ((build_chan_ack_and_send updFix
        (mkHandle State.TryOpen [IBCEvent.ChainError "bad fee"])
        (mkHandle State.TryOpen []) cfgFix).run).1
      = Except.ok (IBCEvent.ChainError "bad fee") := by
  constructor
  · exact send_and_extract_chainerror_behaviour.1
      (mkHandle State.Init [IBCEvent.ChainError "bad fee"]) (mkHandle State.Init [])
      cfgFix _ _ _ "bad fee" rfl rfl rfl
  · exact send_and_extract_chainerror_behaviour.2.2.1 updFix
      (mkHandle State.TryOpen [IBCEvent.ChainError "bad fee"]) (mkHandle State.TryOpen [])
      cfgFix _ _ _ "bad fee" rfl rfl rfl

/-- Full inversion of a successful `build_chan_init` run. -/
theorem build_chan_init_ok (dst_chain src_chain : ChainHandle) (opts : ChannelConfig)
    (msgs : List Any) (tr : CallTrace)
    (h : (build_chan_init dst_chain src_chain opts).run = (Except.ok msgs, tr)) :
    ∃ (signer : Signer) (version : String),
      dst_chain.get_signer = Except.ok signer
      ∧ dst_chain.module_version opts.dst.port_id = Except.ok version
      ∧ tr = [CallRec.get_signer ChainTag.dst,
          CallRec.module_version ChainTag.dst opts.dst.port_id]
      ∧ msgs = [Any.chanOpenInit
          { port_id := opts.dst.port_id,
            channel := ChannelEnd.new State.Init opts.ordering
              (Counterparty.new opts.src.port_id none)
              [opts.dst.connection_id] version,
            signer := signer }] := by
  unfold build_chan_init BM.run at h
  obtain ⟨signer, t1, hx1, h⟩ := BM.bind_ok_pair _ _ _ _ _ h
  have hq1 := BM.call_ok_pair _ _ _ _ _ (BM.mapErr_ok _ _ _ _ _ hx1)
  obtain ⟨version, t2, hx2, h⟩ := BM.bind_ok_pair _ _ _ _ _ h
  have hq2 := BM.call_ok_pair _ _ _ _ _ hx2
  have hfin := BM.pur_ok_pair _ _ _ _ h
  refine ⟨signer, version, hq1.1, hq2.1, ?_, ?_⟩
  · rw [hfin.2, hq2.2, hq1.2]; rfl
  · exact hfin.1.symm

/-- Full inversion of a successful `build_chan_try` run: the oracle calls
made (in order) and the shape of the produced message list. -/
theorem build_chan_try_ok (u : Updater) (dst_chain src_chain : ChainHandle)
    (opts : ChannelConfig) (msgs : List Any) (tr : CallTrace)
    (h : (build_chan_try u dst_chain src_chain opts).run = (Except.ok msgs, tr)) :
    ∃ (src_channel : ChannelEnd) (dst_connection : ConnectionEnd) (H : Height)
      (cus : List ClientUpdateMsg) (version : String) (signer : Signer)
      (counterparty_version : String) (proofs : Proofs),
      src_chain.query_channel opts.src.port_id opts.src.channel_id Height.defaultH
        = Except.ok src_channel
      ∧ src_chain.query_latest_height = Except.ok H
      ∧ u dst_chain src_chain dst_connection.client_id H = Except.ok cus
      ∧ tr = [CallRec.query_channel ChainTag.src opts.src.port_id opts.src.channel_id
            Height.defaultH,
          CallRec.query_connection ChainTag.dst opts.dst.connection_id Height.defaultH,
          CallRec.query_latest_height ChainTag.src,
          CallRec.update_client H,
          CallRec.module_version ChainTag.dst opts.dst.port_id,
          CallRec.get_signer ChainTag.dst,
          CallRec.module_version ChainTag.src opts.src.port_id,
          CallRec.build_channel_proofs ChainTag.src opts.src.port_id opts.src.channel_id H]
      ∧ msgs = cus.map Any.clientUpdate
          ++ [Any.chanOpenTry
              { port_id := opts.dst.port_id,
                previous_channel_id := src_channel.counterparty.channel_id,
                channel := ChannelEnd.new State.TryOpen opts.ordering
                  (Counterparty.new opts.src.port_id (some opts.src.channel_id))
                  [opts.dst.connection_id] version,
                counterparty_version := counterparty_version,
                proofs := proofs,
                signer := signer }] := by
  unfold build_chan_try BM.run at h
  obtain ⟨src_channel, t1, hx1, h⟩ := BM.bind_ok_pair _ _ _ _ _ h
  have hq1 := BM.call_ok_pair _ _ _ _ _ (BM.mapErr_ok _ _ _ _ _ hx1)
  obtain ⟨dst_connection, t2, hx2, h⟩ := BM.bind_ok_pair _ _ _ _ _ h
  have hq2 := BM.call_ok_pair _ _ _ _ _ hx2
  obtain ⟨H, t3, hx3, h⟩ := BM.bind_ok_pair _ _ _ _ _ h
  have hq3 := BM.call_ok_pair _ _ _ _ _ hx3
  obtain ⟨umsgs, t4, hx4, h⟩ := BM.bind_ok_pair _ _ _ _ _ h
  have hq4 := BM.call_ok_pair _ _ _ _ _ hx4
  obtain ⟨cus, hcu, hmap⟩ := except_map_ok _ _ _ hq4.1
  obtain ⟨version, t5, hx5, h⟩ := BM.bind_ok_pair _ _ _ _ _ h
  have hq5 := BM.call_ok_pair _ _ _ _ _ hx5
  obtain ⟨signer, t6, hx6, h⟩ := BM.bind_ok_pair _ _ _ _ _ h
  have hq6 := BM.call_ok_pair _ _ _ _ _ (BM.mapErr_ok _ _ _ _ _ hx6)
  obtain ⟨counterparty_version, t7, hx7, h⟩ := BM.bind_ok_pair _ _ _ _ _ h
  have hq7 := BM.call_ok_pair _ _ _ _ _ hx7
  obtain ⟨proofs, t8, hx8, h⟩ := BM.bind_ok_pair _ _ _ _ _ h
  have hq8 := BM.call_ok_pair _ _ _ _ _ hx8
  have hfin := BM.pur_ok_pair _ _ _ _ h
  refine ⟨src_channel, dst_connection, H, cus, version, signer, counterparty_version,
    proofs, hq1.1, hq3.1, hcu, ?_, ?_⟩
  · rw [hfin.2, hq8.2, hq7.2, hq6.2, hq5.2, hq4.2, hq3.2, hq2.2, hq1.2]; rfl
  · rw [← hfin.1, hmap]

/-- A successful `validated_expected_channel` run records exactly the
destination module-version lookup followed by the destination channel
query. -/
theorem validated_expected_channel_ok_trace (dst_chain src_chain : ChainHandle)
    (msg_type : ChannelMsgType) (opts : ChannelConfig) (tr : CallTrace)
    (c : ChannelEnd) (tr2 : CallTrace)
    (h : validated_expected_channel dst_chain src_chain msg_type opts tr
        = (Except.ok c, tr2)) :
    tr2 = tr ++ [CallRec.module_version ChainTag.dst opts.dst.port_id,
      CallRec.query_channel ChainTag.dst opts.dst.port_id opts.dst.channel_id
        Height.defaultH] := by
  unfold validated_expected_channel at h
  obtain ⟨version, t1, hx1, h⟩ := BM.bind_ok_pair _ _ _ _ _ h
  have hq1 := BM.call_ok_pair _ _ _ _ _ hx1
  obtain ⟨dst_channel, t2, hx2, h⟩ := BM.bind_ok_pair _ _ _ _ _ h
  have hq2 := BM.call_ok_pair _ _ _ _ _ hx2
  by_cases hcond : dst_channel.state_matches State.Uninitialized = true
  · rw [if_pos hcond] at h
    exact absurd h (by simp [BM.fail])
  · rw [if_neg hcond] at h
    obtain ⟨u2, t3, hx3, h⟩ := BM.bind_ok_pair _ _ _ _ _ h
    have ht3 : t2 = t3 := congrArg Prod.snd hx3
    have hfin := BM.pur_ok_pair _ _ _ _ h
    rw [hfin.2, ← ht3, hq2.2, hq1.2]
    simp

/-- Full inversion of a successful `build_chan_ack` run. -/
theorem build_chan_ack_ok (u : Updater) (dst_chain src_chain : ChainHandle)
    (opts : ChannelConfig) (msgs : List Any) (tr : CallTrace)
    (h : (build_chan_ack u dst_chain src_chain opts).run = (Except.ok msgs, tr)) :
    ∃ (dst_connection : ConnectionEnd) (H : Height) (cus : List ClientUpdateMsg)
      (signer : Signer) (counterparty_version : String) (proofs : Proofs),
      src_chain.query_latest_height = Except.ok H
      ∧ u dst_chain src_chain dst_connection.client_id H = Except.ok cus
      ∧ tr = [CallRec.module_version ChainTag.dst opts.dst.port_id,
          CallRec.query_channel ChainTag.dst opts.dst.port_id opts.dst.channel_id
            Height.defaultH,
          CallRec.query_channel ChainTag.src opts.src.port_id opts.src.channel_id
            Height.defaultH,
          CallRec.query_connection ChainTag.dst opts.dst.connection_id Height.defaultH,
          CallRec.query_latest_height ChainTag.src,
          CallRec.update_client H,
          CallRec.get_signer ChainTag.dst,
          CallRec.module_version ChainTag.src opts.dst.port_id,
          CallRec.build_channel_proofs ChainTag.src opts.src.port_id opts.src.channel_id H]
      ∧ msgs = cus.map Any.clientUpdate
          ++ [Any.chanOpenAck
              { port_id := opts.dst.port_id,
                channel_id := opts.dst.channel_id,
                counterparty_channel_id := opts.src.channel_id,
                counterparty_version := counterparty_version,
                proofs := proofs,
                signer := signer }] := by
  unfold build_chan_ack BM.run at h
  obtain ⟨dxc, t1, hx1, h⟩ := BM.bind_ok_pair _ _ _ _ _ h
  have hv1 := validated_expected_channel_ok_trace _ _ _ _ _ _ _
    (BM.mapErr_ok _ _ _ _ _ hx1)
  obtain ⟨src_channel, t2, hx2, h⟩ := BM.bind_ok_pair _ _ _ _ _ h
  have hq2 := BM.call_ok_pair _ _ _ _ _ (BM.mapErr_ok _ _ _ _ _ hx2)
  obtain ⟨dst_connection, t3, hx3, h⟩ := BM.bind_ok_pair _ _ _ _ _ h
  have hq3 := BM.call_ok_pair _ _ _ _ _ hx3
  obtain ⟨H, t4, hx4, h⟩ := BM.bind_ok_pair _ _ _ _ _ h
  have hq4 := BM.call_ok_pair _ _ _ _ _ hx4
  obtain ⟨umsgs, t5, hx5, h⟩ := BM.bind_ok_pair _ _ _ _ _ h
  have hq5 := BM.call_ok_pair _ _ _ _ _ hx5
  obtain ⟨cus, hcu, hmap⟩ := except_map_ok _ _ _ hq5.1
  obtain ⟨signer, t6, hx6, h⟩ := BM.bind_ok_pair _ _ _ _ _ h
  have hq6 := BM.call_ok_pair _ _ _ _ _ (BM.mapErr_ok _ _ _ _ _ hx6)
  obtain ⟨counterparty_version, t7, hx7, h⟩ := BM.bind_ok_pair _ _ _ _ _ h
  have hq7 := BM.call_ok_pair _ _ _ _ _ hx7
  obtain ⟨proofs, t8, hx8, h⟩ := BM.bind_ok_pair _ _ _ _ _ h
  have hq8 := BM.call_ok_pair _ _ _ _ _ hx8
  have hfin := BM.pur_ok_pair _ _ _ _ h
  refine ⟨dst_connection, H, cus, signer, counterparty_version, proofs,
    hq4.1, hcu, ?_, ?_⟩
  · rw [hfin.2, hq8.2, hq7.2, hq6.2, hq5.2, hq4.2, hq3.2, hq2.2, hv1]; rfl
  · rw [← hfin.1, hmap]

/-- Full inversion of a successful `build_chan_confirm` run. -/
theorem build_chan_confirm_ok (u : Updater) (dst_chain src_chain : ChainHandle)
    (opts : ChannelConfig) (msgs : List Any) (tr : CallTrace)
    (h : (build_chan_confirm u dst_chain src_chain opts).run = (Except.ok msgs, tr)) :
    ∃ (dst_connection : ConnectionEnd) (H : Height) (cus : List ClientUpdateMsg)
      (signer : Signer) (proofs : Proofs),
      src_chain.query_latest_height = Except.ok H
      ∧ u dst_chain src_chain dst_connection.client_id H = Except.ok cus
      ∧ tr = [CallRec.module_version ChainTag.dst opts.dst.port_id,
          CallRec.query_channel ChainTag.dst opts.dst.port_id opts.dst.channel_id
            Height.defaultH,
          CallRec.query_channel ChainTag.src opts.src.port_id opts.src.channel_id
            Height.defaultH,
          CallRec.query_connection ChainTag.dst opts.dst.connection_id Height.defaultH,
          CallRec.query_latest_height ChainTag.src,
          CallRec.update_client H,
          CallRec.get_signer ChainTag.dst,
          CallRec.build_channel_proofs ChainTag.src opts.src.port_id opts.src.channel_id H]
      ∧ msgs = cus.map Any.clientUpdate
          ++ [Any.chanOpenConfirm
              { port_id := opts.dst.port_id,
                channel_id := opts.dst.channel_id,
                proofs := proofs,
                signer := signer }] := by
  unfold build_chan_confirm BM.run at h
  obtain ⟨dxc, t1, hx1, h⟩ := BM.bind_ok_pair _ _ _ _ _ h
  have hv1 := validated_expected_channel_ok_trace _ _ _ _ _ _ _
    (BM.mapErr_ok _ _ _ _ _ hx1)
  obtain ⟨src_channel, t2, hx2, h⟩ := BM.bind_ok_pair _ _ _ _ _ h
  have hq2 := BM.call_ok_pair _ _ _ _ _ (BM.mapErr_ok _ _ _ _ _ hx2)
  obtain ⟨dst_connection, t3, hx3, h⟩ := BM.bind_ok_pair _ _ _ _ _ h
  have hq3 := BM.call_ok_pair _ _ _ _ _ hx3
  obtain ⟨H, t4, hx4, h⟩ := BM.bind_ok_pair _ _ _ _ _ h
  have hq4 := BM.call_ok_pair _ _ _ _ _ hx4
  obtain ⟨umsgs, t5, hx5, h⟩ := BM.bind_ok_pair _ _ _ _ _ h
  have hq5 := BM.call_ok_pair _ _ _ _ _ hx5
  obtain ⟨cus, hcu, hmap⟩ := except_map_ok _ _ _ hq5.1
  obtain ⟨signer, t6, hx6, h⟩ := BM.bind_ok_pair _ _ _ _ _ h
  have hq6 := BM.call_ok_pair _ _ _ _ _ (BM.mapErr_ok _ _ _ _ _ hx6)
  obtain ⟨proofs, t7, hx7, h⟩ := BM.bind_ok_pair _ _ _ _ _ h
  have hq7 := BM.call_ok_pair _ _ _ _ _ hx7
  have hfin := BM.pur_ok_pair _ _ _ _ h
  refine ⟨dst_connection, H, cus, signer, proofs, hq4.1, hcu, ?_, ?_⟩
  · rw [hfin.2, hq7.2, hq6.2, hq5.2, hq4.2, hq3.2, hq2.2, hv1]; rfl
  · rw [← hfin.1, hmap]

/-- Claim C8: every message list a builder returns ends with the single
ICS-004 channel message of that step, and the preceding elements are
exactly the messages the client updater returned (for the destination
connection's client and the queried latest height), injected in order;
`build_chan_init` returns exactly the one `MsgChannelOpenInit` and no
client updates. -/
theorem builder_message_list_shape :
    (∀ (dst_chain src_chain : ChainHandle) (opts : ChannelConfig) (msgs : List Any)
        (tr : CallTrace),
      (build_chan_init dst_chain src_chain opts).run = (Except.ok msgs, tr) →
      ∃ m, msgs = [Any.chanOpenInit m])
    ∧ (∀ (u : Updater) (dst_chain src_chain : ChainHandle) (opts : ChannelConfig)
        (msgs : List Any) (tr : CallTrace),
      (build_chan_try u dst_chain src_chain opts).run = (Except.ok msgs, tr) →
      ∃ (client_id : ClientId) (H : Height) (cus : List ClientUpdateMsg)
          (m : MsgChannelOpenTry),
        src_chain.query_latest_height = Except.ok H
        ∧ u dst_chain src_chain client_id H = Except.ok cus
        ∧ msgs = cus.map Any.clientUpdate ++ [Any.chanOpenTry m])
    ∧ (∀ (u : Updater) (dst_chain src_chain : ChainHandle) (opts : ChannelConfig)
        (msgs : List Any) (tr : CallTrace),
      (build_chan_ack u dst_chain src_chain opts).run = (Except.ok msgs, tr) →
      ∃ (client_id : ClientId) (H : Height) (cus : List ClientUpdateMsg)
          (m : MsgChannelOpenAck),
        src_chain.query_latest_height = Except.ok H
        ∧ u dst_chain src_chain client_id H = Except.ok cus
        ∧ msgs = cus.map Any.clientUpdate ++ [Any.chanOpenAck m])
    ∧ (∀ (u : Updater) (dst_chain src_chain : ChainHandle) (opts : ChannelConfig)
        (msgs : List Any) (tr : CallTrace),
      (build_chan_confirm u dst_chain src_chain opts).run = (Except.ok msgs, tr) →
      ∃ (client_id : ClientId) (H : Height) (cus : List ClientUpdateMsg)
          (m : MsgChannelOpenConfirm),
        src_chain.query_latest_height = Except.ok H
        ∧ u dst_chain src_chain client_id H = Except.ok cus
        ∧ msgs = cus.map Any.clientUpdate ++ [Any.chanOpenConfirm m]) := by
  refine ⟨?_, ?_, ?_, ?_⟩
  · intro dst_chain src_chain opts msgs tr h
    obtain ⟨signer, version, _, _, _, hmsgs⟩ := build_chan_init_ok _ _ _ _ _ h
    exact ⟨_, hmsgs⟩
  · intro u dst_chain src_chain opts msgs tr h
    obtain ⟨sc, dc, H, cus, v, sg, cpv, pf, hq, hH, hcu, htr, hmsgs⟩ :=
      build_chan_try_ok _ _ _ _ _ _ h
    exact ⟨dc.client_id, H, cus, _, hH, hcu, hmsgs⟩
  · intro u dst_chain src_chain opts msgs tr h
    obtain ⟨dc, H, cus, sg, cpv, pf, hH, hcu, htr, hmsgs⟩ :=
      build_chan_ack_ok _ _ _ _ _ _ h
    exact ⟨dc.client_id, H, cus, _, hH, hcu, hmsgs⟩
  · intro u dst_chain src_chain opts msgs tr h
    obtain ⟨dc, H, cus, sg, pf, hH, hcu, htr, hmsgs⟩ :=
      build_chan_confirm_ok _ _ _ _ _ _ h
    exact ⟨dc.client_id, H, cus, _, hH, hcu, hmsgs⟩

/-- Witness for C8 at concrete inputs: a successful Init build, and a
successful Try build whose client-update prefix is the updater's output
for the queried latest height. -/
theorem builder_message_list_shape_witness :
    (∃ msgs tr, (build_chan_init (mkHandle State.Init []) (mkHandle State.Init [])
        cfgFix).run = (Except.ok msgs, tr) ∧ ∃ m, msgs = [Any.chanOpenInit m])
    ∧ (∃ msgs tr, (build_chan_try updFix (mkHandle State.TryOpen [])
        (mkHandle State.Init []) cfgFix).run = (Except.ok msgs, tr)
      ∧ ∃ (client_id : ClientId) (H : Height) (cus : List ClientUpdateMsg)
          (m : MsgChannelOpenTry),
        (mkHandle State.Init []).query_latest_height = Except.ok H
        ∧ updFix (mkHandle State.TryOpen []) (mkHandle State.Init []) client_id H
            = Except.ok cus
        ∧ msgs = cus.map Any.clientUpdate ++ [Any.chanOpenTry m]) := by
  constructor
  · exact ⟨_, _, rfl, builder_message_list_shape.1 (mkHandle State.Init [])
      (mkHandle State.Init []) cfgFix _ _ rfl⟩
  · exact ⟨_, _, rfl, builder_message_list_shape.2.1 updFix (mkHandle State.TryOpen [])
      (mkHandle State.Init []) cfgFix _ _ rfl⟩

/-- Claim C3 counterexample: in `build_chan_try` the source channel query is
issued at `Height::default()` (the value `0`), not at the latest height `H`
returned by `query_latest_height` (here `5`), while the proof extraction is
at `H`; so not every height-taking source read uses `H`. -/
theorem build_chan_try_source_read_not_at_latest_height :
    (mkHandle State.Init []).query_latest_height = Except.ok 5
    ∧ CallRec.query_channel ChainTag.src "transfer" "channel-0" Height.defaultH
        ∈ ((build_chan_try updFix (mkHandle State.TryOpen []) (mkHandle State.Init [])
            cfgFix).run).2
    ∧ CallRec.build_channel_proofs ChainTag.src "transfer" "channel-0" 5
        ∈ ((build_chan_try updFix (mkHandle State.TryOpen []) (mkHandle State.Init [])
            cfgFix).run).2
    ∧ Height.defaultH ≠ 5 :=
  ⟨rfl, by decide, by decide, by decide⟩

/-- Claim C3 (amended): in each of `build_chan_try`, `build_chan_ack` and
`build_chan_confirm`, `query_latest_height` is read once from the source
chain and its value `H` is the height of the proof extraction and the
client-update target, and the only height it is used for; the source
channel query instead always uses the `Height::default()` sentinel. -/
theorem builder_height_usage :
    (∀ (u : Updater) (dst_chain src_chain : ChainHandle) (opts : ChannelConfig)
        (msgs : List Any) (tr : CallTrace),
      (build_chan_try u dst_chain src_chain opts).run = (Except.ok msgs, tr) →
      ∃ H, src_chain.query_latest_height = Except.ok H
        ∧ CallRec.build_channel_proofs ChainTag.src opts.src.port_id opts.src.channel_id H
            ∈ tr
        ∧ CallRec.update_client H ∈ tr
        ∧ CallRec.query_channel ChainTag.src opts.src.port_id opts.src.channel_id
            Height.defaultH ∈ tr
        ∧ (∀ hh, CallRec.build_channel_proofs ChainTag.src opts.src.port_id
            opts.src.channel_id hh ∈ tr → hh = H)
        ∧ (∀ hh, CallRec.query_channel ChainTag.src opts.src.port_id opts.src.channel_id hh
            ∈ tr → hh = Height.defaultH))
    ∧ (∀ (u : Updater) (dst_chain src_chain : ChainHandle) (opts : ChannelConfig)
        (msgs : List Any) (tr : CallTrace),
      (build_chan_ack u dst_chain src_chain opts).run = (Except.ok msgs, tr) →
      ∃ H, src_chain.query_latest_height = Except.ok H
        ∧ CallRec.build_channel_proofs ChainTag.src opts.src.port_id opts.src.channel_id H
            ∈ tr
        ∧ CallRec.update_client H ∈ tr
        ∧ CallRec.query_channel ChainTag.src opts.src.port_id opts.src.channel_id
            Height.defaultH ∈ tr
        ∧ (∀ hh, CallRec.build_channel_proofs ChainTag.src opts.src.port_id
            opts.src.channel_id hh ∈ tr → hh = H)
        ∧ (∀ hh, CallRec.query_channel ChainTag.src opts.src.port_id opts.src.channel_id hh
            ∈ tr → hh = Height.defaultH))
    ∧ (∀ (u : Updater) (dst_chain src_chain : ChainHandle) (opts : ChannelConfig)
        (msgs : List Any) (tr : CallTrace),
      (build_chan_confirm u dst_chain src_chain opts).run = (Except.ok msgs, tr) →
      ∃ H, src_chain.query_latest_height = Except.ok H
        ∧ CallRec.build_channel_proofs ChainTag.src opts.src.port_id opts.src.channel_id H
            ∈ tr
        ∧ CallRec.update_client H ∈ tr
        ∧ CallRec.query_channel ChainTag.src opts.src.port_id opts.src.channel_id
            Height.defaultH ∈ tr
        ∧ (∀ hh, CallRec.build_channel_proofs ChainTag.src opts.src.port_id
            opts.src.channel_id hh ∈ tr → hh = H)
        ∧ (∀ hh, CallRec.query_channel ChainTag.src opts.src.port_id opts.src.channel_id hh
            ∈ tr → hh = Height.defaultH)) := by
  refine ⟨?_, ?_, ?_⟩
  · intro u dst_chain src_chain opts msgs tr h
    obtain ⟨sc, dc, H, cus, v, sg, cpv, pf, hq, hH, hu, htr, hmsgs⟩ :=
      build_chan_try_ok _ _ _ _ _ _ h
    subst htr
    refine ⟨H, hH, by simp, by simp, by simp, ?_, ?_⟩
    · intro hh hmem
      simp only [List.mem_cons, List.not_mem_nil, or_false] at hmem
      simpa using hmem
    · intro hh hmem
      simp only [List.mem_cons, List.not_mem_nil, or_false] at hmem
      simpa using hmem
  · intro u dst_chain src_chain opts msgs tr h
    obtain ⟨dc, H, cus, sg, cpv, pf, hH, hu, htr, hmsgs⟩ :=
      build_chan_ack_ok _ _ _ _ _ _ h
    subst htr
    refine ⟨H, hH, by simp, by simp, by simp, ?_, ?_⟩
    · intro hh hmem
      simp only [List.mem_cons, List.not_mem_nil, or_false] at hmem
      simpa using hmem
    · intro hh hmem
      simp only [List.mem_cons, List.not_mem_nil, or_false] at hmem
      simpa using hmem
  · intro u dst_chain src_chain opts msgs tr h
    obtain ⟨dc, H, cus, sg, pf, hH, hu, htr, hmsgs⟩ :=
      build_chan_confirm_ok _ _ _ _ _ _ h
    subst htr
    refine ⟨H, hH, by simp, by simp, by simp, ?_, ?_⟩
    · intro hh hmem
      simp only [List.mem_cons, List.not_mem_nil, or_false] at hmem
      simpa using hmem
    · intro hh hmem
      simp only [List.mem_cons, List.not_mem_nil, or_false] at hmem
      simpa using hmem

/-- Witness for the amended C3 theorem at a concrete input. -/
theorem builder_height_usage_witness :
    ∃ H, (mkHandle State.Init []).query_latest_height = Except.ok H
      ∧ CallRec.build_channel_proofs ChainTag.src cfgFix.src.port_id cfgFix.src.channel_id H
          ∈ ((build_chan_try updFix (mkHandle State.TryOpen []) (mkHandle State.Init [])
              cfgFix).run).2
      ∧ CallRec.update_client H
          ∈ ((build_chan_try updFix (mkHandle State.TryOpen []) (mkHandle State.Init [])
              cfgFix).run).2
      ∧ CallRec.query_channel ChainTag.src cfgFix.src.port_id cfgFix.src.channel_id
          Height.defaultH
          ∈ ((build_chan_try updFix (mkHandle State.TryOpen []) (mkHandle State.Init [])
              cfgFix).run).2
      ∧ (∀ hh, CallRec.build_channel_proofs ChainTag.src cfgFix.src.port_id
          cfgFix.src.channel_id hh
          ∈ ((build_chan_try updFix (mkHandle State.TryOpen []) (mkHandle State.Init [])
              cfgFix).run).2 → hh = H)
      ∧ (∀ hh, CallRec.query_channel ChainTag.src cfgFix.src.port_id cfgFix.src.channel_id hh
          ∈ ((build_chan_try updFix (mkHandle State.TryOpen []) (mkHandle State.Init [])
              cfgFix).run).2 → hh = Height.defaultH) :=
  builder_height_usage.1 updFix (mkHandle State.TryOpen []) (mkHandle State.Init [])
    cfgFix _ _ rfl

/-- A pair whose first component is known is the evident pair. -/
theorem pair_fst_ok {α : Type} (p : Except Error α × CallTrace) (a : α)
    (h : p.1 = Except.ok a) : p = (Except.ok a, p.2) := by
  cases p
  simp_all

/-- The only error `extract_channel_id` produces. -/
theorem extract_channel_id_error (event : IBCEvent) (e : ChannelError)
    (h : extract_channel_id event = Except.error e) :
    e = ChannelError.Failed "cannot extract channel_id from result" := by
  cases event <;> simp [extract_channel_id] at h <;> exact h.symm

/-- A successful `build_chan_init_and_send` run returns an `OpenInitChannel`
event (the `ChainError` match is mapped to an error, the rest is
unreachable). -/
theorem build_chan_init_and_send_ok_shape (dst_chain src_chain : ChainHandle)
    (opts : ChannelConfig) (ev : IBCEvent)
    (h : ((build_chan_init_and_send dst_chain src_chain opts).run).1 = Except.ok ev) :
    ∃ attr, ev = IBCEvent.OpenInitChannel attr := by
  have hp := pair_fst_ok _ _ h
  unfold build_chan_init_and_send BM.run at hp
  obtain ⟨msgs, t1, h1, hp⟩ := BM.bind_ok_pair _ _ _ _ _ hp
  obtain ⟨events, t2, h2, hp⟩ := BM.bind_ok_pair _ _ _ _ _ hp
  cases hf : events.find?
      (fun event => matches_open_init event || matches_chain_error event) with
  | none => simp only [hf, BM.fail] at hp; simp at hp
  | some result =>
    simp only [hf] at hp
    cases result <;> simp only [BM.fail, BM.pur] at hp <;> simp at hp
    case OpenInitChannel attr => exact ⟨attr, hp.1.symm⟩

/-- A successful `build_chan_try_and_send` run returns the first event
matching the Try filter: an `OpenTryChannel` event or a `ChainError`
event. -/
theorem build_chan_try_and_send_ok_shape (u : Updater) (dst_chain src_chain : ChainHandle)
    (opts : ChannelConfig) (ev : IBCEvent)
    (h : ((build_chan_try_and_send u dst_chain src_chain opts).run).1 = Except.ok ev) :
    (∃ attr, ev = IBCEvent.OpenTryChannel attr) ∨ (∃ m, ev = IBCEvent.ChainError m) := by
  have hp := pair_fst_ok _ _ h
  unfold build_chan_try_and_send BM.run at hp
  obtain ⟨msgs, t1, h1, hp⟩ := BM.bind_ok_pair _ _ _ _ _ hp
  obtain ⟨events, t2, h2, hp⟩ := BM.bind_ok_pair _ _ _ _ _ hp
  cases hf : events.find?
      (fun event => matches_open_try event || matches_chain_error event) with
  | none => simp only [hf, BM.fail] at hp; simp at hp
  | some result =>
    simp only [hf, BM.pur] at hp
    have hres : ev = result := by
      rw [Prod.mk.injEq] at hp
      injection hp.1 with h3
      exact h3.symm
    have hpred := List.find?_some hf
    subst hres
    cases ev with
    | OpenTryChannel attr => exact Or.inl ⟨attr, rfl⟩
    | ChainError m => exact Or.inr ⟨m, rfl⟩
    | OpenInitChannel attr => simp [matches_open_try, matches_chain_error] at hpred
    | OpenAckChannel attr => simp [matches_open_try, matches_chain_error] at hpred
    | OpenConfirmChannel attr => simp [matches_open_try, matches_chain_error] at hpred
    | OtherEvent t => simp [matches_open_try, matches_chain_error] at hpred

/-- An error escaping phase I is the `extract_channel_id` failure: wrapper
errors are swallowed by the retry loop. -/
theorem phase1Go_error_shape (env : HandshakeEnv) (flip cfg : ChannelConfig) :
    ∀ fuel i e tr, phase1Go env flip cfg i fuel = (Except.error e, tr) →
      e = ChannelError.Failed "cannot extract channel_id from result" := by
  intro fuel
  induction fuel with
  | zero => intro i e tr h; simp [phase1Go] at h
  | succ n ih =>
    intro i e tr h
    simp only [phase1Go] at h
    cases hw : ((build_chan_init_and_send ((env.w1 i).a) ((env.w1 i).b) flip).run).1 with
    | error e2 => simp only [hw] at h; exact ih _ _ _ h
    | ok result =>
      simp only [hw] at h
      cases hx : extract_channel_id result with
      | error e2 =>
        simp only [hx] at h
        rw [Prod.mk.injEq] at h
        have h3 : e2 = e := by injection h.1
        exact h3.symm.trans (extract_channel_id_error result e2 hx) |>.symm.symm
      | ok cid => simp only [hx] at h; simp at h

/-- An error escaping phase II is the `extract_channel_id` failure. -/
theorem phase2Go_error_shape (env : HandshakeEnv) (cfg : ChannelConfig) :
    ∀ fuel i e tr, phase2Go env cfg i fuel = (Except.error e, tr) →
      e = ChannelError.Failed "cannot extract channel_id from result" := by
  intro fuel
  induction fuel with
  | zero => intro i e tr h; simp [phase2Go] at h
  | succ n ih =>
    intro i e tr h
    simp only [phase2Go] at h
    cases hw : ((build_chan_try_and_send ((env.w2 i).upd) ((env.w2 i).b) ((env.w2 i).a)
        cfg).run).1 with
    | error e2 => simp only [hw] at h; exact ih _ _ _ h
    | ok result =>
      simp only [hw] at h
      cases hx : extract_channel_id result with
      | error e2 =>
        simp only [hx] at h
        rw [Prod.mk.injEq] at h
        have h3 : e2 = e := by injection h.1
        exact h3.symm.trans (extract_channel_id_error result e2 hx) |>.symm.symm
      | ok cid => simp only [hx] at h; simp at h

/-- The only error phase III produces is budget exhaustion. -/
theorem phase3Go_error_shape (env : HandshakeEnv) (maxIter : Nat)
    (cfg flip : ChannelConfig) :
    ∀ fuel i e, phase3Go env maxIter cfg flip i fuel = Except.error e →
      e = ChannelError.Failed (budgetMsg maxIter) := by
  intro fuel
  induction fuel with
  | zero =>
    intro i e h
    simp only [phase3Go] at h
    injection h with h2
    exact h2.symm
  | succ n ih =>
    intro i e h
    simp only [phase3Go] at h
    cases hqa : (env.w3 i).a.query_channel cfg.a_end.port_id cfg.a_end.channel_id
        Height.zero with
    | error e2 => simp only [hqa] at h; exact ih _ _ h
    | ok a_channel =>
      simp only [hqa] at h
      cases hqb : (env.w3 i).b.query_channel cfg.b_end.port_id cfg.b_end.channel_id
          Height.zero with
      | error e2 => simp only [hqb] at h; exact ih _ _ h
      | ok b_channel =>
        simp only [hqb] at h
        cases hsa : a_channel.state <;> cases hsb : b_channel.state <;>
          simp only [hsa, hsb] at h <;>
          first
            | exact ih _ _ h
            | simp at h

/-- Phase III either succeeds or fails with the budget-exhaustion error. -/
theorem phase3Go_total (env : HandshakeEnv) (maxIter : Nat) (cfg flip : ChannelConfig)
    (fuel i : Nat) :
    phase3Go env maxIter cfg flip i fuel = Except.ok Unit.unit
      ∨ phase3Go env maxIter cfg flip i fuel
          = Except.error (ChannelError.Failed (budgetMsg maxIter)) := by
  cases hv : phase3Go env maxIter cfg flip i fuel with
  | ok u =>
    left
    cases u
    rfl
  | error e =>
    right
    rw [phase3Go_error_shape env maxIter cfg flip fuel i e hv]

/-- If every attempt of phase I fails, the loop exhausts its budget and
falls through with the config unchanged and no assignment. -/
theorem phase1Go_all_fail (env : HandshakeEnv) (flip cfg : ChannelConfig) :
    ∀ fuel i,
      (∀ j, j < fuel → ∃ e, ((build_chan_init_and_send ((env.w1 (i + j)).a)
          ((env.w1 (i + j)).b) flip).run).1 = Except.error e) →
      phase1Go env flip cfg i fuel = (Except.ok cfg, []) := by
  intro fuel
  induction fuel with
  | zero => intro i hf; simp [phase1Go]
  | succ n ih =>
    intro i hf
    obtain ⟨e0, he0⟩ := hf 0 (Nat.succ_pos n)
    rw [show i + 0 = i from rfl] at he0
    simp only [phase1Go, he0]
    exact ih (i + 1) (fun j hj => by
      obtain ⟨e1, he1⟩ := hf (j + 1) (by omega)
      exact ⟨e1, by rwa [show i + (j + 1) = i + 1 + j from by omega] at he1⟩)

/-- If every attempt of phase II fails, the loop exhausts its budget and
falls through with the config unchanged and no assignment. -/
theorem phase2Go_all_fail (env : HandshakeEnv) (cfg : ChannelConfig) :
    ∀ fuel i,
      (∀ j, j < fuel → ∃ e, ((build_chan_try_and_send ((env.w2 (i + j)).upd)
          ((env.w2 (i + j)).b) ((env.w2 (i + j)).a) cfg).run).1 = Except.error e) →
      phase2Go env cfg i fuel = (Except.ok cfg, []) := by
  intro fuel
  induction fuel with
  | zero => intro i hf; simp [phase2Go]
  | succ n ih =>
    intro i hf
    obtain ⟨e0, he0⟩ := hf 0 (Nat.succ_pos n)
    rw [show i + 0 = i from rfl] at he0
    simp only [phase2Go, he0]
    exact ih (i + 1) (fun j hj => by
      obtain ⟨e1, he1⟩ := hf (j + 1) (by omega)
      exact ⟨e1, by rwa [show i + (j + 1) = i + 1 + j from by omega] at he1⟩)

/-- The assignments recorded by phase I: none, or exactly one A-side
assignment taken from an `OpenInitChannel` event. -/
theorem phase1Go_trace_shape (env : HandshakeEnv) (flip cfg : ChannelConfig) :
    ∀ fuel i r tr, phase1Go env flip cfg i fuel = (r, tr) →
      tr = [] ∨ ∃ attr : ChannelAttributes,
        tr = [Assignment.mk SideTag.A (IBCEvent.OpenInitChannel attr)
          attr.channel_id] := by
  intro fuel
  induction fuel with
  | zero =>
    intro i r tr h
    simp only [phase1Go] at h
    rw [Prod.mk.injEq] at h
    exact Or.inl h.2.symm
  | succ n ih =>
    intro i r tr h
    simp only [phase1Go] at h
    cases hw : ((build_chan_init_and_send ((env.w1 i).a) ((env.w1 i).b) flip).run).1 with
    | error e2 => simp only [hw] at h; exact ih _ _ _ h
    | ok result =>
      simp only [hw] at h
      obtain ⟨attr, hattr⟩ := build_chan_init_and_send_ok_shape _ _ _ _ hw
      subst hattr
      cases hx : extract_channel_id (IBCEvent.OpenInitChannel attr) with
      | error e2 =>
        simp only [hx] at h
        rw [Prod.mk.injEq] at h
        exact Or.inl h.2.symm
      | ok cid =>
        simp only [hx] at h
        have hcid : cid = attr.channel_id := by
          simp [extract_channel_id] at hx
          exact hx.symm
        rw [Prod.mk.injEq] at h
        refine Or.inr ⟨attr, ?_⟩
        rw [← h.2, hcid]

/-- The assignments recorded by phase II: none, or exactly one B-side
assignment taken from an `OpenTryChannel` event (a passed-through
`ChainError` success value fails `extract_channel_id` and records
nothing). -/
theorem phase2Go_trace_shape (env : HandshakeEnv) (cfg : ChannelConfig) :
    ∀ fuel i r tr, phase2Go env cfg i fuel = (r, tr) →
      tr = [] ∨ ∃ attr : ChannelAttributes,
        tr = [Assignment.mk SideTag.B (IBCEvent.OpenTryChannel attr)
          attr.channel_id] := by
  intro fuel
  induction fuel with
  | zero =>
    intro i r tr h
    simp only [phase2Go] at h
    rw [Prod.mk.injEq] at h
    exact Or.inl h.2.symm
  | succ n ih =>
    intro i r tr h
    simp only [phase2Go] at h
    cases hw : ((build_chan_try_and_send ((env.w2 i).upd) ((env.w2 i).b) ((env.w2 i).a)
        cfg).run).1 with
    | error e2 => simp only [hw] at h; exact ih _ _ _ h
    | ok result =>
      simp only [hw] at h
      rcases build_chan_try_and_send_ok_shape _ _ _ _ _ hw with ⟨attr, hattr⟩ | ⟨m, hm⟩
      · subst hattr
        cases hx : extract_channel_id (IBCEvent.OpenTryChannel attr) with
        | error e2 =>
          simp only [hx] at h
          rw [Prod.mk.injEq] at h
          exact Or.inl h.2.symm
        | ok cid =>
          simp only [hx] at h
          have hcid : cid = attr.channel_id := by
            simp [extract_channel_id] at hx
            exact hx.symm
          rw [Prod.mk.injEq] at h
          refine Or.inr ⟨attr, ?_⟩
          rw [← h.2, hcid]
      · subst hm
        cases hx : extract_channel_id (IBCEvent.ChainError m) with
        | error e2 =>
          simp only [hx] at h
          rw [Prod.mk.injEq] at h
          exact Or.inl h.2.symm
        | ok cid => simp [extract_channel_id] at hx

/-- Claim C10: if every phase-I attempt fails and every phase-II attempt
fails, `handshake` reports no error at those points: it falls through to
phase III with the config (hence both channel ids) unchanged and no
assignment recorded, and the only possible failure is phase III's
budget-exhaustion error. -/
theorem phase_exhaustion_falls_through (env : HandshakeEnv) (maxIter : Nat)
    (cfg : ChannelConfig)
    (h1 : ∀ j, j < maxIter → ∃ e, ((build_chan_init_and_send ((env.w1 j).a)
        ((env.w1 j).b) cfg.flipped).run).1 = Except.error e)
    (h2 : ∀ j, j < maxIter → ∃ e, ((build_chan_try_and_send ((env.w2 j).upd)
        ((env.w2 j).b) ((env.w2 j).a) cfg).run).1 = Except.error e) :
    handshake env maxIter cfg = (phase3Go env maxIter cfg cfg.flipped 0 maxIter, [])
      ∧ (phase3Go env maxIter cfg cfg.flipped 0 maxIter = Except.ok Unit.unit
        ∨ phase3Go env maxIter cfg cfg.flipped 0 maxIter
            = Except.error (ChannelError.Failed (budgetMsg maxIter))) := by
  have hp1 := phase1Go_all_fail env cfg.flipped cfg maxIter 0 (fun j hj => by
    simpa using h1 j hj)
  have hp2 := phase2Go_all_fail env cfg maxIter 0 (fun j hj => by simpa using h2 j hj)
  constructor
  · simp only [handshake, runPhases12, hp1, hp2, List.nil_append]
  · exact phase3Go_total env maxIter cfg cfg.flipped maxIter 0

/-- Witness for C10 at a concrete input: every attempt fails, the driver
falls through and the outcome is the phase III budget-exhaustion error. -/
theorem phase_exhaustion_falls_through_witness :
    handshake envFail 1 cfgStart = (phase3Go envFail 1 cfgStart cfgStart.flipped 0 1, [])
      ∧ (phase3Go envFail 1 cfgStart cfgStart.flipped 0 1 = Except.ok Unit.unit
        ∨ phase3Go envFail 1 cfgStart cfgStart.flipped 0 1
            = Except.error (ChannelError.Failed (budgetMsg 1))) :=
  phase_exhaustion_falls_through envFail 1 cfgStart
    (fun _ _ => ⟨_, rfl⟩) (fun _ _ => ⟨_, rfl⟩)

/-- The only errors `handshake` can return: budget exhaustion, or the
channel-id extraction failure raised through the `?` operator in phases I
and II. -/
theorem handshake_error_cases_aux (env : HandshakeEnv) (maxIter : Nat)
    (cfg : ChannelConfig) :
    ∀ e, (handshake env maxIter cfg).1 = Except.error e →
      e = ChannelError.Failed (budgetMsg maxIter)
        ∨ e = ChannelError.Failed "cannot extract channel_id from result" := by
  intro e h
  cases hp1 : phase1Go env cfg.flipped cfg 0 maxIter with
  | mk r1 tr1 =>
    cases r1 with
    | error e1 =>
      simp only [handshake, runPhases12, hp1] at h
      injection h with h2
      exact Or.inr (h2 ▸ phase1Go_error_shape env cfg.flipped cfg maxIter 0 e1 tr1 hp1)
    | ok cfg1 =>
      cases hp2 : phase2Go env cfg1 0 maxIter with
      | mk r2 tr2 =>
        cases r2 with
        | error e2 =>
          simp only [handshake, runPhases12, hp1, hp2] at h
          injection h with h2
          exact Or.inr (h2 ▸ phase2Go_error_shape env cfg1 maxIter 0 e2 tr2 hp2)
        | ok cfg2 =>
          simp only [handshake, runPhases12, hp1, hp2] at h
          exact Or.inl (phase3Go_error_shape env maxIter cfg2 cfg2.flipped maxIter 0 e h)

/-- Claim C2 (amended): every wrapper or dispatch error inside an iteration
is swallowed and the loop continues; `handshake` propagates exactly two
errors: the phase III budget exhaustion, and
`Failed("cannot extract channel_id from result")`, raised when a phase I/II
wrapper succeeds with an event carrying no channel id (e.g. the Try wrapper
passing a `ChainError` event through as a success). -/
theorem handshake_propagated_errors (env : HandshakeEnv) (maxIter : Nat)
    (cfg : ChannelConfig) (e : ChannelError)
    (h : (handshake env maxIter cfg).1 = Except.error e) :
    e = ChannelError.Failed (budgetMsg maxIter)
      ∨ e = ChannelError.Failed "cannot extract channel_id from result" :=
  handshake_error_cases_aux env maxIter cfg e h

/-- Witness for the amended C2 theorem at a concrete input. -/
theorem handshake_propagated_errors_witness :
    ChannelError.Failed (budgetMsg 0) = ChannelError.Failed (budgetMsg 0)
      ∨ ChannelError.Failed (budgetMsg 0)
        = ChannelError.Failed "cannot extract channel_id from result" :=
  handshake_propagated_errors envFail 0 cfgStart (ChannelError.Failed (budgetMsg 0)) rfl

/-- Claim C6: during any run of the driver, the A-side channel id is
assigned at most once and only with the id carried by an `OpenInitChannel`
event, and the B-side channel id is assigned at most once and only with
the id carried by an `OpenTryChannel` event; no further mutation of either
occurs. -/
theorem handshake_channel_id_assignments (env : HandshakeEnv) (maxIter : Nat)
    (cfg : ChannelConfig) :
    (∀ a ∈ (handshake env maxIter cfg).2,
        (a.side = SideTag.A → ∃ attr, a.event = IBCEvent.OpenInitChannel attr
          ∧ a.cid = attr.channel_id)
      ∧ (a.side = SideTag.B → ∃ attr, a.event = IBCEvent.OpenTryChannel attr
          ∧ a.cid = attr.channel_id))
    ∧ (List.filter (fun a => decide (a.side = SideTag.A))
        (handshake env maxIter cfg).2).length ≤ 1
    ∧ (List.filter (fun a => decide (a.side = SideTag.B))
        (handshake env maxIter cfg).2).length ≤ 1 := by
  have key : (handshake env maxIter cfg).2 = []
      ∨ (∃ attr, (handshake env maxIter cfg).2
          = [Assignment.mk SideTag.A (IBCEvent.OpenInitChannel attr) attr.channel_id])
      ∨ (∃ attr, (handshake env maxIter cfg).2
          = [Assignment.mk SideTag.B (IBCEvent.OpenTryChannel attr) attr.channel_id])
      ∨ (∃ attr1 attr2, (handshake env maxIter cfg).2
          = [Assignment.mk SideTag.A (IBCEvent.OpenInitChannel attr1) attr1.channel_id,
             Assignment.mk SideTag.B (IBCEvent.OpenTryChannel attr2)
               attr2.channel_id]) := by
    cases hp1 : phase1Go env cfg.flipped cfg 0 maxIter with
    | mk r1 tr1 =>
      have ht1 := phase1Go_trace_shape env cfg.flipped cfg maxIter 0 r1 tr1 hp1
      cases r1 with
      | error e1 =>
        have hh : (handshake env maxIter cfg).2 = tr1 := by
          simp only [handshake, runPhases12, hp1]
        rcases ht1 with h | ⟨attr, h⟩
        · exact Or.inl (hh.trans h)
        · exact Or.inr (Or.inl ⟨attr, hh.trans h⟩)
      | ok cfg1 =>
        cases hp2 : phase2Go env cfg1 0 maxIter with
        | mk r2 tr2 =>
          have ht2 := phase2Go_trace_shape env cfg1 maxIter 0 r2 tr2 hp2
          have hh : (handshake env maxIter cfg).2 = tr1 ++ tr2 := by
            cases r2 with
            | error e2 => simp only [handshake, runPhases12, hp1, hp2]
            | ok cfg2 => simp only [handshake, runPhases12, hp1, hp2]
          rcases ht1 with h1 | ⟨attr1, h1⟩ <;> rcases ht2 with h2 | ⟨attr2, h2⟩
          · exact Or.inl (by rw [hh, h1, h2]; rfl)
          · exact Or.inr (Or.inr (Or.inl ⟨attr2, by rw [hh, h1, h2]; rfl⟩))
          · exact Or.inr (Or.inl ⟨attr1, by rw [hh, h1, h2]; rfl⟩)
          · exact Or.inr (Or.inr (Or.inr ⟨attr1, attr2, by rw [hh, h1, h2]; rfl⟩))
  rcases key with h | ⟨attr, h⟩ | ⟨attr, h⟩ | ⟨attr1, attr2, h⟩ <;> rw [h] <;>
    refine ⟨?_, ?_, ?_⟩ <;> simp [List.filter]

/-- Witness for C6 at a concrete input: the happy-path run records the
A-side assignment from its `OpenInitChannel` event, and each side is
assigned at most once. -/
theorem handshake_channel_id_assignments_witness :
    (∃ attr, IBCEvent.OpenInitChannel (ChannelAttributes.mk "channel-0")
        = IBCEvent.OpenInitChannel attr
      ∧ ("channel-0" : ChannelId) = attr.channel_id)
    ∧ (List.filter (fun a => decide (a.side = SideTag.A))
        (handshake envHappy 3 cfgStart).2).length ≤ 1
    ∧ (List.filter (fun a => decide (a.side = SideTag.B))
        (handshake envHappy 3 cfgStart).2).length ≤ 1 := by
  have hmem : Assignment.mk SideTag.A
      (IBCEvent.OpenInitChannel (ChannelAttributes.mk "channel-0")) "channel-0"
      ∈ (handshake envHappy 3 cfgStart).2 := by decide
  exact ⟨((handshake_channel_id_assignments envHappy 3 cfgStart).1 _ hmem).1 rfl,
    (handshake_channel_id_assignments envHappy 3 cfgStart).2.1,
    (handshake_channel_id_assignments envHappy 3 cfgStart).2.2⟩

/-- Claim C2 counterexample: a chain-reported error inside a single phase-II
iteration is not swallowed: the Try wrapper passes the `ChainError` event
through as a success, `extract_channel_id` fails, and `handshake`
propagates an error that is not the budget-exhaustion error. -/
theorem handshake_propagates_mid_phase_error :
    (handshake envExtract 1 cfgStart).1
      = Except.error (ChannelError.Failed "cannot extract channel_id from result")
    ∧ ChannelError.Failed "cannot extract channel_id from result"
      ≠ ChannelError.Failed (budgetMsg 1) :=
  ⟨rfl, by decide⟩

/-- If iteration `i` observes `(Open, Open)`, phase III succeeds there. -/
theorem phase3Go_obs_true (env : HandshakeEnv) (maxIter : Nat) (cfg flip : ChannelConfig)
    (i n : Nat) (h : observesOpenOpen env i cfg = true) :
    phase3Go env maxIter cfg flip i (n + 1) = Except.ok Unit.unit := by
  unfold observesOpenOpen at h
  cases hqa : (env.w3 i).a.query_channel cfg.a_end.port_id cfg.a_end.channel_id
      Height.zero with
  | error e => simp only [hqa] at h; exact Bool.noConfusion h
  | ok a_channel =>
    simp only [hqa] at h
    cases hqb : (env.w3 i).b.query_channel cfg.b_end.port_id cfg.b_end.channel_id
        Height.zero with
    | error e => simp only [hqb] at h; exact Bool.noConfusion h
    | ok b_channel =>
      simp only [hqb, Bool.and_eq_true, decide_eq_true_eq] at h
      simp only [phase3Go, hqa, hqb, h.1, h.2]

/-- If iteration `i` does not observe `(Open, Open)`, phase III moves on to
the next iteration. -/
theorem phase3Go_obs_false (env : HandshakeEnv) (maxIter : Nat)
    (cfg flip : ChannelConfig) (i n : Nat) (h : observesOpenOpen env i cfg = false) :
    phase3Go env maxIter cfg flip i (n + 1) = phase3Go env maxIter cfg flip (i + 1) n := by
  unfold observesOpenOpen at h
  cases hqa : (env.w3 i).a.query_channel cfg.a_end.port_id cfg.a_end.channel_id
      Height.zero with
  | error e => simp [phase3Go, hqa]
  | ok a_channel =>
    simp only [hqa] at h
    cases hqb : (env.w3 i).b.query_channel cfg.b_end.port_id cfg.b_end.channel_id
        Height.zero with
    | error e => simp [phase3Go, hqa, hqb]
    | ok b_channel =>
      simp only [hqb] at h
      simp only [phase3Go, hqa, hqb]
      cases hsa : a_channel.state <;> cases hsb : b_channel.state <;>
        simp only [hsa, hsb] <;> try rfl
      rw [hsa, hsb] at h
      simp at h

/-- Phase III succeeds exactly when some iteration within its remaining
budget observes `(Open, Open)`. -/
theorem phase3Go_ok_iff (env : HandshakeEnv) (maxIter : Nat) (cfg flip : ChannelConfig) :
    ∀ fuel i, phase3Go env maxIter cfg flip i fuel = Except.ok Unit.unit ↔
      ∃ j, j < fuel ∧ observesOpenOpen env (i + j) cfg = true := by
  intro fuel
  induction fuel with
  | zero => intro i; simp [phase3Go]
  | succ n ih =>
    intro i
    by_cases hobs : observesOpenOpen env i cfg = true
    · rw [phase3Go_obs_true env maxIter cfg flip i n hobs]
      exact iff_of_true rfl ⟨0, Nat.succ_pos n, by simpa using hobs⟩
    · have hobs2 : observesOpenOpen env i cfg = false := by
        cases hval : observesOpenOpen env i cfg
        · rfl
        · exact absurd hval hobs
      rw [phase3Go_obs_false env maxIter cfg flip i n hobs2, ih (i + 1)]
      constructor
      · rintro ⟨j, hj, hoo⟩
        refine ⟨j + 1, by omega, ?_⟩
        rwa [show i + (j + 1) = i + 1 + j from by omega]
      · rintro ⟨j, hj, hoo⟩
        cases j with
        | zero =>
          rw [Nat.add_zero] at hoo
          exact absurd hoo (by simp [hobs2])
        | succ k =>
          refine ⟨k, by omega, ?_⟩
          rwa [show i + (k + 1) = i + 1 + k from by omega] at hoo

/-- Claim C5 (amended): `handshake` returns `Ok` exactly when, after phases
I/II complete without an extraction error, some phase-III iteration within
the budget observes both ends `Open`; if phases I/II complete but no such
observation occurs, the result is `Failed("Failed to finish channel
handshake in N iterations")` with `N = MAX_ITER`; the only further outcome
is `Failed("cannot extract channel_id from result")` propagated from
phases I/II. -/
theorem handshake_outcome_characterization (env : HandshakeEnv) (maxIter : Nat)
    (cfg : ChannelConfig) :
    ((handshake env maxIter cfg).1 = Except.ok Unit.unit ↔
      (∃ cfg2 tr, runPhases12 env maxIter cfg = (Except.ok cfg2, tr)
        ∧ ∃ i, i < maxIter ∧ observesOpenOpen env i cfg2 = true))
    ∧ (∀ cfg2 tr, runPhases12 env maxIter cfg = (Except.ok cfg2, tr) →
        (¬ ∃ i, i < maxIter ∧ observesOpenOpen env i cfg2 = true) →
        (handshake env maxIter cfg).1
          = Except.error (ChannelError.Failed (budgetMsg maxIter)))
    ∧ (∀ e, (handshake env maxIter cfg).1 = Except.error e →
        e = ChannelError.Failed (budgetMsg maxIter)
          ∨ e = ChannelError.Failed "cannot extract channel_id from result") := by
  refine ⟨?_, ?_, handshake_error_cases_aux env maxIter cfg⟩
  · cases hp : runPhases12 env maxIter cfg with
    | mk r tr =>
      cases r with
      | error e =>
        have hh : (handshake env maxIter cfg).1 = Except.error e := by
          simp only [handshake, hp]
        rw [hh]
        refine iff_of_false (by simp) ?_
        rintro ⟨cfg2, tr2, habs, _⟩
        simp at habs
      | ok cfg2 =>
        have hh : (handshake env maxIter cfg).1
            = phase3Go env maxIter cfg2 cfg2.flipped 0 maxIter := by
          simp only [handshake, hp]
        rw [hh, phase3Go_ok_iff env maxIter cfg2 cfg2.flipped maxIter 0]
        constructor
        · rintro ⟨j, hj, hoo⟩
          exact ⟨cfg2, tr, rfl, j, hj, by simpa using hoo⟩
        · rintro ⟨cfg3, tr3, heq, i, hi, hoo⟩
          rw [Prod.mk.injEq] at heq
          have hc : cfg2 = cfg3 := by injection heq.1
          subst hc
          exact ⟨i, hi, by simpa using hoo⟩
  · intro cfg2 tr hp hnex
    have hh : (handshake env maxIter cfg).1
        = phase3Go env maxIter cfg2 cfg2.flipped 0 maxIter := by
      simp only [handshake, hp]
    rw [hh]
    rcases phase3Go_total env maxIter cfg2 cfg2.flipped maxIter 0 with hok | herr
    · exfalso
      rw [phase3Go_ok_iff env maxIter cfg2 cfg2.flipped maxIter 0] at hok
      obtain ⟨j, hj, hoo⟩ := hok
      exact hnex ⟨j, hj, by simpa using hoo⟩
    · exact herr

/-- Witness for the amended C5 theorem at a concrete input: with a zero
budget no `(Open, Open)` observation occurs and the handshake fails with the
budget message. -/
theorem handshake_outcome_characterization_witness :
    (handshake envFail 0 cfgStart).1
      = Except.error (ChannelError.Failed (budgetMsg 0)) :=
  (handshake_outcome_characterization envFail 0 cfgStart).2.1 cfgStart [] rfl
    (by rintro ⟨i, hi, _⟩; exact absurd hi (by omega))

/-- Claim C5 counterexample: a run whose outcome is neither `Ok` nor the
budget-exhaustion message: phase II's wrapper passes a `ChainError` event
through and `handshake` fails with the channel-id extraction message. -/
theorem handshake_outcome_outside_claimed_set :
    (handshake envExtract 2 cfgStart).1
      = Except.error (ChannelError.Failed "cannot extract channel_id from result")
    ∧ (Except.error (ChannelError.Failed "cannot extract channel_id from result")
        : Except ChannelError Unit) ≠ Except.ok Unit.unit
    ∧ ChannelError.Failed "cannot extract channel_id from result"
        ≠ ChannelError.Failed (budgetMsg 2) :=
  ⟨rfl, by simp, by decide⟩
